import Mathlib

/-!
# FS26-RCV: LoRa GPS telemetry receiver (`FS26-RCV.c`)

A shallow embedding of the receive loop of `FS26-RCV.c` and the properties of
its receive cycle, packet validation, counters and interrupt latch.

Conventions of the embedding.

* C unsigned integers are `Nat`; a value stored into a `uint8_t` is reduced
  `% 256`, the `uint32_t` counters are incremented `% 2^32`. `float` fields are
  carried as their 32-bit patterns (the receiver never computes with them).
* The file-scope variables, the locals of `main` that `lora_receive` writes
  through its pointer arguments, the LR1121 as seen through the driver, and a
  log make up `State`. The log is the program-order record of what the main
  context does that is observable from outside it: every driver call,
  `sleep_ms`, `printf`, and every store it makes to the two `volatile` flags.
  The interrupt handler runs in interrupt context and writes no log entry.
* The radio and the DIO interrupt act asynchronously. They are driven by a
  list of `Tick`s: every `sleep_ms` call lets exactly one pending tick happen.
  An empty tick list is a radio that never raises anything again.
* The constants of `lr1121_config.h` and of the LR11xx driver headers are not
  in the repository sources; they are the fields of `Config`.
-/

namespace FS26RCV

/-! ## Constants and types -/

/-- The `#define TELEMETRY_MAGIC 0x46533236` of line 20. -/
def TELEMETRY_MAGIC : Nat := 0x46533236

/-- The struct `gps_telemetry_packet_t` (lines 28-37), packed; the four
`float` fields hold their 32-bit patterns. -/
structure gps_telemetry_packet_t where
  magic : Nat
  latitude : Nat
  longitude : Nat
  speed_kph : Nat
  altitude : Nat
  tx_count : Nat
  satellites : Nat
  fix_valid : Nat
deriving DecidableEq, Repr

/-- The value of `sizeof(gps_telemetry_packet_t)`: 4+4+4+4+4+2+1+1 bytes, packed. -/
def sizeof_gps_telemetry_packet_t : Nat := 24

/-- Every field of the packet fits the width of its C type. -/
def gps_telemetry_packet_t.in_range (p : gps_telemetry_packet_t) : Prop :=
  p.magic < 2 ^ 32 ∧ p.latitude < 2 ^ 32 ∧ p.longitude < 2 ^ 32 ∧ p.speed_kph < 2 ^ 32 ∧
  p.altitude < 2 ^ 32 ∧ p.tx_count < 2 ^ 16 ∧ p.satellites < 2 ^ 8 ∧ p.fix_valid < 2 ^ 8

/-- Whether a packet is in range can be computed. -/
instance gps_telemetry_packet_t.decidable_in_range (p : gps_telemetry_packet_t) :
    Decidable p.in_range := by
  unfold gps_telemetry_packet_t.in_range
  exact inferInstance

/-- Constants used by `FS26-RCV.c` whose definitions live in headers outside
the sources at hand (`lr1121_config.h`, the LR11xx driver). -/
structure Config where
  LR11XX_SYSTEM_IRQ_RX_DONE : Nat
  LR11XX_SYSTEM_IRQ_CRC_ERROR : Nat
  LR11XX_SYSTEM_IRQ_TIMEOUT : Nat
  LR11XX_SYSTEM_IRQ_ALL_MASK : Nat
  LR11XX_SYSTEM_STANDBY_CFG_RC : Nat
  RX_CONTINUOUS : Nat
  PAYLOAD_LENGTH : Nat
deriving DecidableEq, Repr

/-- One `printf` call of `FS26-RCV.c` after initialisation, with its arguments. -/
inductive Msg where
  | crc_error (error_count : Nat)
  | rx_timeout
  | unknown_irq (irq_status : Nat)
  | packet_too_large (payload_len max_length : Nat)
  | invalid_magic (magic expected : Nat)
  | packet_too_small (rx_length expected : Nat)
  | hex_dump_header
  | hex_byte (b : Nat)
  | hex_dump_end
  | telemetry_blank
  | telemetry_top
  | telemetry_title
  | telemetry_rule
  | telemetry_position (latitude longitude : Nat)
  | telemetry_speed (speed_kph : Nat)
  | telemetry_altitude (altitude : Nat)
  | telemetry_satellites (satellites : Nat)
  | telemetry_fix (valid : Bool)
  | telemetry_tx_count (tx_count : Nat)
  | telemetry_link (rssi snr : Int) (rx_count : Nat)
  | telemetry_bottom
deriving DecidableEq, Repr

/-- The bar of the three box rules of `display_telemetry`: sixty-two horizontal
double-line characters (U+2550). -/
def box_bar : String := String.mk (List.replicate 62 (Char.ofNat 0x2550))

/-- The format string of each `printf` call, as written in the source. -/
def Msg.format : Msg → String
  | .crc_error _ => "[LORA] CRC error (total errors: %lu)\n"
  | .rx_timeout => "[LORA] RX timeout\n"
  | .unknown_irq _ => "[LORA] Unknown IRQ: 0x%08lX\n"
  | .packet_too_large _ _ => "[LORA] Packet too large: %d > %d\n"
  | .invalid_magic _ _ => "[LORA] Invalid magic: 0x%08lX (expected 0x%08lX)\n"
  | .packet_too_small _ _ => "[LORA] Packet too small: %d bytes (expected >= %lu)\n"
  | .hex_dump_header => "[LORA] Hex dump: "
  | .hex_byte _ => "%02X "
  | .hex_dump_end => "\n"
  | .telemetry_blank => "\n"
  | .telemetry_top => "╔" ++ box_bar ++ "╗\n"
  | .telemetry_title => "║              FS26 GPS TELEMETRY RECEIVED                     ║\n"
  | .telemetry_rule => "╠" ++ box_bar ++ "╣\n"
  | .telemetry_position _ _ => "║  Position:   %.6f, %.6f                     ║\n"
  | .telemetry_speed _ => "║  Speed:      %.1f kph                                        ║\n"
  | .telemetry_altitude _ => "║  Altitude:   %.1f m                                          ║\n"
  | .telemetry_satellites _ => "║  Satellites: %d                                              ║\n"
  | .telemetry_fix _ => "║  GPS Fix:    %s                                            ║\n"
  | .telemetry_tx_count _ => "║  TX Count:   %u                                              ║\n"
  | .telemetry_link _ _ _ => "║  RSSI: %d dBm  |  SNR: %d dB  |  RX Count: %lu              ║\n"
  | .telemetry_bottom => "╚" ++ box_bar ++ "╝\n"

/-- Number of line ends a `printf` call writes: the newline characters of its
format string (no conversion of these formats expands to a newline). -/
def Msg.newlines (m : Msg) : Nat := m.format.data.count (Char.ofNat 10)

/-- Whether the call is one of the thirteen of `display_telemetry`. -/
def Msg.is_telemetry : Msg → Bool
  | .telemetry_blank | .telemetry_top | .telemetry_title | .telemetry_rule
  | .telemetry_position _ _ | .telemetry_speed _ | .telemetry_altitude _
  | .telemetry_satellites _ | .telemetry_fix _ | .telemetry_tx_count _
  | .telemetry_link _ _ _ | .telemetry_bottom => true
  | _ => false

/-- An externally visible operation, in the order the program performs them. -/
inductive Op where
  | lr11xx_system_set_standby (standby_cfg : Nat)
  | lr11xx_system_clear_irq_status (irqs_to_clear : Nat)
  | lr11xx_radio_set_rx (timeout : Nat)
  | lr11xx_system_get_irq_status (irq_status : Nat)
  | lr11xx_radio_get_lora_pkt_status
  | lr11xx_radio_get_rx_buffer_status
  | lr11xx_regmem_read_buffer8 (offset length : Nat)
  | sleep_ms (ms : Nat)
  | printf (m : Msg)
  | store_rx_done_flag (value : Bool)
  | store_rx_error_flag (value : Bool)
deriving DecidableEq, Repr

/-- Whether the operation reads the interrupt-status register. -/
def Op.reads_irq_status : Op → Bool
  | .lr11xx_system_get_irq_status _ => true
  | _ => false

/-- The `printf` calls of a log, in order. -/
def printed (ops : List Op) : List Msg :=
  ops.filterMap fun op => match op with
    | .printf m => some m
    | _ => none

/-- Number of line ends the `printf` calls of a log write. -/
def lines_written (ops : List Op) : Nat := ((printed ops).map Msg.newlines).sum

/-- The LR1121 as the receiver observes it through the driver. -/
structure lr1121_t where
  irq_status : Nat
  in_rx : Bool
  rssi_pkt_in_dbm : Int
  snr_pkt_in_db : Int
  pld_len_in_bytes : Nat
  buffer_start_pointer : Nat
  rx_memory : List Nat
deriving DecidableEq, Repr

/-- What the radio reports about a frame that has landed in its buffer. -/
structure Reception where
  rssi_pkt_in_dbm : Int
  snr_pkt_in_db : Int
  pld_len_in_bytes : Nat
  buffer_start_pointer : Nat
  rx_memory : List Nat
deriving DecidableEq, Repr

/-- What happens asynchronously during one `sleep_ms`: a frame may land, the
radio may raise interrupt-status bits, and the DIO edge may invoke the
registered handler (`dio_events = some events`). The three are independent. -/
structure Tick where
  reception : Option Reception
  irq_raise : Nat
  dio_events : Option Nat
deriving DecidableEq, Repr

/-- Program state: the file-scope variables (lines 44-47), the locals of `main`
(lines 241-243), the radio, and the log of operations. -/
structure State where
  rx_done_flag : Bool
  rx_error_flag : Bool
  rx_count : Nat
  error_count : Nat
  rx_buffer : List Nat
  rx_length : Nat
  rssi : Int
  snr : Int
  lr1121 : lr1121_t
  trace : List Op
deriving DecidableEq, Repr

/-- The result of one receive cycle; every `return` of `lora_receive` is tagged
with the outcome it stands for. -/
inductive Outcome where
  | PacketReceived
  | CrcError
  | Timeout
  | UnknownInterrupt (raw_status : Nat)
  | OversizedPayload
deriving DecidableEq, Repr

/-- The `bool` that `lora_receive` returns: `true` only at line 191. -/
def Outcome.toBool : Outcome → Bool
  | .PacketReceived => true
  | _ => false

/-- The pin `RADIO_IRQ` of `gpio.h`. -/
def RADIO_IRQ : Nat := 14

/-! ## Logging, time and the asynchronous side -/

/-- Append one operation to the log. -/
def emit (op : Op) (st : State) : State :=
  { st with trace := st.trace ++ [op] }

/-- A `printf` call: it only writes to the output. -/
def printf (m : Msg) (st : State) : State := emit (.printf m) st

/-- The interrupt handler `rx_isr` (lines 57-59): `rx_done_flag = true;`, with
both arguments unused. -/
def rx_isr (_gpio : Nat) (_events : Nat) (st : State) : State :=
  { st with rx_done_flag := true }

/-- The radio side of a tick: a landed frame replaces what the radio reports
about its buffer, and raised bits are or-ed into the interrupt status. -/
def Tick.on_radio (t : Tick) (hw : lr1121_t) : lr1121_t :=
  let hw := match t.reception with
    | none => hw
    | some r => { hw with rssi_pkt_in_dbm := r.rssi_pkt_in_dbm, snr_pkt_in_db := r.snr_pkt_in_db,
                          pld_len_in_bytes := r.pld_len_in_bytes,
                          buffer_start_pointer := r.buffer_start_pointer,
                          rx_memory := r.rx_memory }
  { hw with irq_status := hw.irq_status ||| t.irq_raise }

/-- One tick happens: the radio changes, then the handler registered by
`lora_init_irq(&lr1121, &rx_isr)` (line 78) runs if the DIO edge fired. -/
def Tick.happen (t : Tick) (st : State) : State :=
  let st := { st with lr1121 := t.on_radio st.lr1121 }
  match t.dio_events with
  | none => st
  | some events => rx_isr RADIO_IRQ events st

/-- The call `sleep_ms(ms)`: logged, and one pending tick (if any) happens
while the program sleeps. -/
def sleep_ms (ms : Nat) (ticks : List Tick) (st : State) : State × List Tick :=
  match ticks with
  | [] => (emit (.sleep_ms ms) st, [])
  | t :: rest => (t.happen (emit (.sleep_ms ms) st), rest)

/-! ## The LR11xx driver calls -/

/-- Modelled from the spec: the driver function `lr11xx_system_set_standby`
(`set_idle()`, force known standby state); it always succeeds. -/
def lr11xx_system_set_standby (standby_cfg : Nat) (st : State) : State :=
  emit (.lr11xx_system_set_standby standby_cfg)
    { st with lr1121 := { st.lr1121 with in_rx := false } }

/-- Modelled from the spec: the driver function `lr11xx_system_clear_irq_status`
(`clear_interrupt_status(mask)`, clear the pending interrupt bits of the mask);
it always succeeds. -/
def lr11xx_system_clear_irq_status (irqs_to_clear : Nat) (st : State) : State :=
  emit (.lr11xx_system_clear_irq_status irqs_to_clear)
    { st with lr1121 := { st.lr1121 with
        irq_status := st.lr1121.irq_status ^^^ (st.lr1121.irq_status &&& irqs_to_clear) } }

/-- Modelled from the spec: the driver function `lr11xx_radio_set_rx`
(`begin_continuous_receive()`, start listening); it always succeeds. -/
def lr11xx_radio_set_rx (timeout : Nat) (st : State) : State :=
  emit (.lr11xx_radio_set_rx timeout)
    { st with lr1121 := { st.lr1121 with in_rx := true } }

/-- Modelled from the spec: the driver function `lr11xx_system_get_irq_status`
(`get_interrupt_status() -> bitmask`, read raw hardware status). -/
def lr11xx_system_get_irq_status (st : State) : Nat × State :=
  (st.lr1121.irq_status, emit (.lr11xx_system_get_irq_status st.lr1121.irq_status) st)

/-- Modelled from the spec: the driver function `lr11xx_radio_get_lora_pkt_status`
(`get_packet_status() -> (signal_strength, noise)`), yielding the two `int8_t`
fields `rssi_pkt_in_dbm` and `snr_pkt_in_db`. -/
def lr11xx_radio_get_lora_pkt_status (st : State) : (Int × Int) × State :=
  ((st.lr1121.rssi_pkt_in_dbm, st.lr1121.snr_pkt_in_db),
   emit .lr11xx_radio_get_lora_pkt_status st)

/-- Modelled from the spec: the driver function `lr11xx_radio_get_rx_buffer_status`
(`get_buffer_status() -> (length, offset)`), yielding the two `uint8_t` fields
`pld_len_in_bytes` and `buffer_start_pointer`. -/
def lr11xx_radio_get_rx_buffer_status (st : State) : (Nat × Nat) × State :=
  ((st.lr1121.pld_len_in_bytes % 256, st.lr1121.buffer_start_pointer % 256),
   emit .lr11xx_radio_get_rx_buffer_status st)

/-- The bytes `offset .. offset+length-1` of the radio's receive memory. -/
def lr1121_t.bytes_at (hw : lr1121_t) (offset length : Nat) : List Nat :=
  (List.range length).map fun i => hw.rx_memory.getD (offset + i) 0 % 256

/-- Modelled from the spec: the driver function `lr11xx_regmem_read_buffer8`
(`read_buffer(offset, length) -> bytes`), storing `length` bytes from the radio
memory at `offset` into the start of `buffer`; the rest of `buffer` is kept. -/
def lr11xx_regmem_read_buffer8 (offset length : Nat) (st : State) : State :=
  emit (.lr11xx_regmem_read_buffer8 offset length)
    { st with rx_buffer := st.lr1121.bytes_at offset length ++ st.rx_buffer.drop length }

/-! ## `lora_start_rx` and `lora_receive` -/

/-- An assignment `rx_done_flag = value;` made by the main context: a store to
a `volatile` object, logged in program order. -/
def store_rx_done_flag (value : Bool) (st : State) : State :=
  emit (.store_rx_done_flag value) { st with rx_done_flag := value }

/-- An assignment `rx_error_flag = value;` made by the main context: a store to
a `volatile` object, logged in program order. -/
def store_rx_error_flag (value : Bool) (st : State) : State :=
  emit (.store_rx_error_flag value) { st with rx_error_flag := value }

/-- The function `lora_start_rx` (lines 94-107). -/
def lora_start_rx (cfg : Config) (st : State) : State :=
  let st := lr11xx_system_set_standby cfg.LR11XX_SYSTEM_STANDBY_CFG_RC st
  let st := lr11xx_system_clear_irq_status cfg.LR11XX_SYSTEM_IRQ_ALL_MASK st
  let st := store_rx_done_flag false st
  let st := store_rx_error_flag false st
  lr11xx_radio_set_rx cfg.RX_CONTINUOUS st

/-- The wait loop of `lora_receive` (lines 123-138). Each pass that does not
leave the loop ends in `sleep_ms(1)`, during which the next tick happens. With
no tick left nothing can change any more and the loop never ends: `none`. -/
def lora_receive_wait (cfg : Config) : List Tick → State → Option (State × List Tick)
  | ticks, st =>
    if st.rx_done_flag then some (st, ticks)
    else
      let (irq_status, st) := lr11xx_system_get_irq_status st
      if irq_status &&& (cfg.LR11XX_SYSTEM_IRQ_RX_DONE ||| cfg.LR11XX_SYSTEM_IRQ_CRC_ERROR
          ||| cfg.LR11XX_SYSTEM_IRQ_TIMEOUT) ≠ 0 then
        let st := store_rx_done_flag true st
        let st :=
          if irq_status &&& (cfg.LR11XX_SYSTEM_IRQ_CRC_ERROR ||| cfg.LR11XX_SYSTEM_IRQ_TIMEOUT) ≠ 0
          then store_rx_error_flag true st else st
        some (st, ticks)
      else
        match ticks with
        | [] => none
        | t :: rest => lora_receive_wait cfg rest (t.happen (emit (.sleep_ms 1) st))

/-- The rest of `lora_receive` (lines 140-192), after the wait loop.
`max_length` is the `uint8_t` argument; `rssi_ptr`/`snr_ptr` say whether the
pointer arguments are non-`NULL`; `buffer`, `received_length`, `rssi`, `snr`
point to `rx_buffer`, `rx_length`, `rssi`, `snr` of `main`. -/
def lora_receive_body (cfg : Config) (max_length : Nat) (rssi_ptr snr_ptr : Bool)
    (st : State) : Outcome × State :=
  let (irq_status, st) := lr11xx_system_get_irq_status st
  let st := lr11xx_system_clear_irq_status cfg.LR11XX_SYSTEM_IRQ_ALL_MASK st
  if irq_status &&& cfg.LR11XX_SYSTEM_IRQ_CRC_ERROR ≠ 0 then
    let st := { st with error_count := (st.error_count + 1) % 2 ^ 32 }
    (.CrcError, printf (.crc_error st.error_count) st)
  else if irq_status &&& cfg.LR11XX_SYSTEM_IRQ_TIMEOUT ≠ 0 then
    (.Timeout, printf .rx_timeout st)
  else if irq_status &&& cfg.LR11XX_SYSTEM_IRQ_RX_DONE = 0 then
    (.UnknownInterrupt irq_status, printf (.unknown_irq irq_status) st)
  else
    let (pkt_status, st) := lr11xx_radio_get_lora_pkt_status st
    let st := if rssi_ptr then { st with rssi := pkt_status.1 } else st
    let st := if snr_ptr then { st with snr := pkt_status.2 } else st
    let (rx_buffer_status, st) := lr11xx_radio_get_rx_buffer_status st
    let payload_len := rx_buffer_status.1
    if payload_len > max_length then
      (.OversizedPayload, printf (.packet_too_large payload_len max_length) st)
    else
      let st := { st with rx_length := payload_len }
      let st := lr11xx_regmem_read_buffer8 rx_buffer_status.2 payload_len st
      let st := { st with rx_count := (st.rx_count + 1) % 2 ^ 32 }
      (.PacketReceived, st)

/-- The function `lora_receive` (lines 119-192): the wait loop, then the rest. -/
def lora_receive (cfg : Config) (max_length : Nat) (rssi_ptr snr_ptr : Bool)
    (ticks : List Tick) (st : State) : Option (Outcome × State × List Tick) :=
  match lora_receive_wait cfg ticks st with
  | none => none
  | some (st, ticks) =>
    let (outcome, st) := lora_receive_body cfg max_length rssi_ptr snr_ptr st
    some (outcome, st, ticks)

/-! ## Packet layout, `display_telemetry` and `main` -/

/-- The byte `buf[i]` of a `uint8_t` buffer. -/
def u8_at (buf : List Nat) (i : Nat) : Nat := buf.getD i 0 % 256

/-- A little-endian `uint16_t` at byte offset `i`. -/
def u16_le_at (buf : List Nat) (i : Nat) : Nat := u8_at buf i + 256 * u8_at buf (i + 1)

/-- A little-endian 32-bit value at byte offset `i`. -/
def u32_le_at (buf : List Nat) (i : Nat) : Nat :=
  u8_at buf i + 256 * u8_at buf (i + 1) + 65536 * u8_at buf (i + 2) + 16777216 * u8_at buf (i + 3)

/-- The cast `(gps_telemetry_packet_t*)rx_buffer` of line 254 on the
little-endian target: each field read at its packed offset. -/
def cast_packet (rx_buffer : List Nat) : gps_telemetry_packet_t :=
  { magic := u32_le_at rx_buffer 0
    latitude := u32_le_at rx_buffer 4
    longitude := u32_le_at rx_buffer 8
    speed_kph := u32_le_at rx_buffer 12
    altitude := u32_le_at rx_buffer 16
    tx_count := u16_le_at rx_buffer 20
    satellites := u8_at rx_buffer 22
    fix_valid := u8_at rx_buffer 23 }

/-- The four bytes of a 32-bit value, least significant first. -/
def le32_bytes (v : Nat) : List Nat :=
  [v % 256, v / 256 % 256, v / 65536 % 256, v / 16777216 % 256]

/-- The 24 bytes of a packed `gps_telemetry_packet_t` object in little-endian
memory: what the transmitter sends. -/
def packet_bytes (p : gps_telemetry_packet_t) : List Nat :=
  le32_bytes p.magic ++ le32_bytes p.latitude ++ le32_bytes p.longitude ++
  le32_bytes p.speed_kph ++ le32_bytes p.altitude ++
  [p.tx_count % 256, p.tx_count / 256 % 256, p.satellites % 256, p.fix_valid % 256]

/-- The thirteen `printf` calls of `display_telemetry` (lines 197-212);
`packet->fix_valid ? "Valid" : "No Fix"` only uses whether the field is nonzero. -/
def display_telemetry_lines (packet : gps_telemetry_packet_t) (rssi snr : Int)
    (rx_count : Nat) : List Msg :=
  [ .telemetry_blank, .telemetry_top, .telemetry_title, .telemetry_rule,
    .telemetry_position packet.latitude packet.longitude,
    .telemetry_speed packet.speed_kph,
    .telemetry_altitude packet.altitude,
    .telemetry_satellites packet.satellites,
    .telemetry_fix (packet.fix_valid != 0),
    .telemetry_tx_count packet.tx_count,
    .telemetry_rule,
    .telemetry_link rssi snr rx_count,
    .telemetry_bottom ]

/-- The function `display_telemetry` (lines 197-212); it reads `rx_count`. -/
def display_telemetry (packet : gps_telemetry_packet_t) (rssi snr : Int) (st : State) : State :=
  (display_telemetry_lines packet rssi snr st.rx_count).foldl (fun st m => printf m st) st

/-- The loop `for (int i = 0; i < rx_length && i < 32; i++) printf("%02X ", rx_buffer[i]);`
of lines 269-271, from index `i`; at most 32 passes are ever needed. -/
def hex_dump_loop : Nat → Nat → State → State
  | 0, _, st => st
  | fuel + 1, i, st =>
    if i < st.rx_length ∧ i < 32 then
      hex_dump_loop fuel (i + 1) (printf (.hex_byte (u8_at st.rx_buffer i)) st)
    else st

/-- The body of `if (lora_receive(...))` in `main` (lines 252-273): the length
check, the magic check, and what each branch prints. -/
def main_on_packet (st : State) : State :=
  if st.rx_length ≥ sizeof_gps_telemetry_packet_t then
    let packet := cast_packet st.rx_buffer
    if packet.magic = TELEMETRY_MAGIC then
      display_telemetry packet st.rssi st.snr st
    else
      printf (.invalid_magic packet.magic TELEMETRY_MAGIC) st
  else
    let st := printf (.packet_too_small st.rx_length sizeof_gps_telemetry_packet_t) st
    let st := printf .hex_dump_header st
    let st := hex_dump_loop 32 0 st
    printf .hex_dump_end st

/-- One pass of the `while (true)` loop of `main` (lines 246-278).
`sizeof(rx_buffer)` is `PAYLOAD_LENGTH`, converted to the `uint8_t` parameter. -/
def main_iteration (cfg : Config) (ticks : List Tick) (st : State) :
    Option (Outcome × State × List Tick) :=
  let st := lora_start_rx cfg st
  match lora_receive cfg (cfg.PAYLOAD_LENGTH % 256) true true ticks st with
  | none => none
  | some (outcome, st, ticks) =>
    let st := if outcome.toBool then main_on_packet st else st
    let (st, ticks) := sleep_ms 10 ticks st
    some (outcome, st, ticks)

/-- The first `n` passes of the main loop, with the outcome of each. The loop
has no exit; a pass that never ends (`none`) ends the run. -/
def main_loop (cfg : Config) : Nat → List Tick → State → Option (List Outcome × State × List Tick)
  | 0, ticks, st => some ([], st, ticks)
  | n + 1, ticks, st =>
    match main_iteration cfg ticks st with
    | none => none
    | some (outcome, st, ticks) =>
      match main_loop cfg n ticks st with
      | none => none
      | some (outcomes, st, ticks) => some (outcome :: outcomes, st, ticks)

/-- The state in which `main` enters its loop: the initialisers of lines 44-47,
and whatever the radio and the uninitialised locals hold. -/
def initial_state (rx_buffer : List Nat) (rx_length : Nat) (rssi snr : Int) (hw : lr1121_t) :
    State :=
  { rx_done_flag := false, rx_error_flag := false, rx_count := 0, error_count := 0,
    rx_buffer := rx_buffer, rx_length := rx_length, rssi := rssi, snr := snr,
    lr1121 := hw, trace := [] }

/-- The hex dump of a buffer of `rx_length` bytes: the first `min rx_length 32`
bytes, one `printf` each. -/
def hex_dump_ops (rx_buffer : List Nat) (rx_length : Nat) : List Op :=
  (List.range (min rx_length 32)).map fun j => Op.printf (Msg.hex_byte (u8_at rx_buffer j))

/-! ## Concrete data for the worked examples -/

/-- Values for the header constants, used in the worked examples only: the
interrupt bits RX_DONE = bit 3, CRC_ERROR = bit 7, TIMEOUT = bit 10, an
all-ones mask, and a 255-byte receive buffer. -/
def example_config : Config :=
  { LR11XX_SYSTEM_IRQ_RX_DONE := 8
    LR11XX_SYSTEM_IRQ_CRC_ERROR := 128
    LR11XX_SYSTEM_IRQ_TIMEOUT := 1024
    LR11XX_SYSTEM_IRQ_ALL_MASK := 0xFFFFFFFF
    LR11XX_SYSTEM_STANDBY_CFG_RC := 0
    RX_CONTINUOUS := 0xFFFFFF
    PAYLOAD_LENGTH := 255 }

/-- A quiet radio with an empty buffer. -/
def example_radio : lr1121_t :=
  { irq_status := 0, in_rx := false, rssi_pkt_in_dbm := 0, snr_pkt_in_db := 0,
    pld_len_in_bytes := 0, buffer_start_pointer := 0, rx_memory := [] }

/-- The state at loop entry used in the worked examples. -/
def example_state : State := initial_state (List.replicate 255 0) 0 0 0 example_radio

/-- The packet of the end-to-end scenario: latitude 37.422, longitude -122.084,
speed 0.0, altitude 30.5 as IEEE-754 single patterns, tx_count 42,
9 satellites, fix valid. -/
def example_packet : gps_telemetry_packet_t :=
  { magic := 0x46533236, latitude := 0x4215B021, longitude := 0xC2F42B02, speed_kph := 0,
    altitude := 0x41F40000, tx_count := 42, satellites := 9, fix_valid := 1 }

/-- A state just after the wait loop, with the given interrupt-status word and
the radio reporting a payload of `pld_len` bytes at offset 0. -/
def example_after_wait (irq pld_len : Nat) : State :=
  { example_state with
    rx_done_flag := true
    lr1121 := { example_radio with irq_status := irq, pld_len_in_bytes := pld_len,
                                   rx_memory := packet_bytes example_packet } }

/-- The state of `main` holding a received buffer of `rx_length` bytes. -/
def example_received (rx_buffer : List Nat) (rx_length : Nat) : State :=
  { example_state with rx_buffer := rx_buffer, rx_length := rx_length, rssi := -40, snr := 7,
                       rx_count := 1 }

/-- The bytes of `TELEMETRY_MAGIC` in memory order, each one complemented. -/
def flipped_magic_bytes : List Nat := [0xC9, 0xCD, 0xAC, 0xB9]

/-- A tick in which the radio raises the CRC-error bit and the DIO edge fires. -/
def crc_tick : Tick := { reception := none, irq_raise := 128, dio_events := some 8 }

/-- A tick in which nothing happens. -/
def quiet_tick : Tick := { reception := none, irq_raise := 0, dio_events := none }

/-- A tick in which a frame of the given bytes lands, RX done is raised and the
DIO edge fires. -/
def frame_tick (payload : List Nat) : Tick :=
  { reception := some { rssi_pkt_in_dbm := -40, snr_pkt_in_db := 7,
                        pld_len_in_bytes := payload.length, buffer_start_pointer := 0,
                        rx_memory := payload }
    irq_raise := 8
    dio_events := some 8 }

/-- Ticks for `n` cycles, each ending in a CRC error: the error is raised during
the wait, and nothing happens during the `sleep_ms(10)` that follows. -/
def crc_storm : Nat → List Tick
  | 0 => []
  | n + 1 => crc_tick :: quiet_tick :: crc_storm n

/-- Ticks for six cycles: a 3-byte frame, a CRC error, a timeout raised
together with RX done, the scenario packet, a DIO edge with only an
unrecognised bit raised, and a CRC error raised together with RX done; after
each cycle one quiet tick passes during `sleep_ms(10)`. -/
def example_ticks : List Tick :=
  [ frame_tick [1, 2, 3], quiet_tick,
    { reception := none, irq_raise := 128, dio_events := none }, quiet_tick,
    { reception := none, irq_raise := 1024 + 8, dio_events := none }, quiet_tick,
    frame_tick (packet_bytes example_packet), quiet_tick,
    { reception := none, irq_raise := 16, dio_events := some 8 }, quiet_tick,
    { reception := none, irq_raise := 128 + 8, dio_events := some 8 }, quiet_tick ]

/-! ## Theorems -/

/-- C9: `lora_start_rx` performs, in exactly this order and nothing else:
standby, the clear of all interrupt-status bits, the store of `false` to
`rx_done_flag`, the store of `false` to `rx_error_flag`, and only then the
continuous-receive command. So, for every prior state, the receive command is
issued from a state `mid` in which both flags are false and whose log ends with
the clear of all bits followed by the two stores; no status-register operation
lies between that clear and the receive command. -/
theorem lora_start_rx_order (cfg : Config) (st : State) :
    (lora_start_rx cfg st).trace = st.trace ++
        [Op.lr11xx_system_set_standby cfg.LR11XX_SYSTEM_STANDBY_CFG_RC,
         Op.lr11xx_system_clear_irq_status cfg.LR11XX_SYSTEM_IRQ_ALL_MASK,
         Op.store_rx_done_flag false,
         Op.store_rx_error_flag false,
         Op.lr11xx_radio_set_rx cfg.RX_CONTINUOUS]
    ∧ (∃ mid : State,
        lora_start_rx cfg st = lr11xx_radio_set_rx cfg.RX_CONTINUOUS mid
        ∧ mid.rx_done_flag = false ∧ mid.rx_error_flag = false
        ∧ mid.lr1121.in_rx = false
        ∧ mid.lr1121.irq_status
            = st.lr1121.irq_status ^^^ (st.lr1121.irq_status &&& cfg.LR11XX_SYSTEM_IRQ_ALL_MASK)
        ∧ mid.trace = st.trace ++
            [Op.lr11xx_system_set_standby cfg.LR11XX_SYSTEM_STANDBY_CFG_RC,
             Op.lr11xx_system_clear_irq_status cfg.LR11XX_SYSTEM_IRQ_ALL_MASK,
             Op.store_rx_done_flag false,
             Op.store_rx_error_flag false])
    ∧ lora_start_rx cfg st
      = lr11xx_radio_set_rx cfg.RX_CONTINUOUS
          (store_rx_error_flag false
            (store_rx_done_flag false
              (lr11xx_system_clear_irq_status cfg.LR11XX_SYSTEM_IRQ_ALL_MASK
                (lr11xx_system_set_standby cfg.LR11XX_SYSTEM_STANDBY_CFG_RC st))))
    ∧ (lora_start_rx cfg st).rx_done_flag = false
    ∧ (lora_start_rx cfg st).rx_error_flag = false
    ∧ (lora_start_rx cfg st).lr1121.in_rx = true := by
  refine ⟨?_, ⟨_, rfl, rfl, rfl, rfl, rfl, ?_⟩, rfl, rfl, rfl, rfl⟩
  · simp [lora_start_rx, store_rx_done_flag, store_rx_error_flag,
      lr11xx_system_clear_irq_status, lr11xx_system_set_standby, lr11xx_radio_set_rx, emit]
  · simp [store_rx_done_flag, store_rx_error_flag, lr11xx_system_clear_irq_status,
      lr11xx_system_set_standby, emit]

/-- C10: however many times (at least once) and with whatever arguments the
handler `rx_isr` runs, the state is the one a single run leaves: the latch is
set, and the error flag, both counters and everything else are untouched. -/
theorem rx_isr_idempotent (st : State) (calls : List (Nat × Nat)) (gpio events : Nat)
    (h : 1 ≤ calls.length) :
    calls.foldl (fun s c => rx_isr c.1 c.2 s) st = rx_isr gpio events st
    ∧ rx_isr gpio events st = { st with rx_done_flag := true }
    ∧ (calls.foldl (fun s c => rx_isr c.1 c.2 s) st).rx_done_flag = true
    ∧ (calls.foldl (fun s c => rx_isr c.1 c.2 s) st).rx_error_flag = st.rx_error_flag
    ∧ (calls.foldl (fun s c => rx_isr c.1 c.2 s) st).rx_count = st.rx_count
    ∧ (calls.foldl (fun s c => rx_isr c.1 c.2 s) st).error_count = st.error_count := by
  have key : ∀ (cs : List (Nat × Nat)) (s : State), s.rx_done_flag = true →
      cs.foldl (fun s c => rx_isr c.1 c.2 s) s = s := by
    intro cs
    induction cs with
    | nil => intro s _; rfl
    | cons c cs ih =>
      intro s hs
      have hstep : rx_isr c.1 c.2 s = s := by
        cases s
        simp only [rx_isr] at hs ⊢
        simp [hs]
      simp only [List.foldl_cons, hstep]
      exact ih s hs
  cases calls with
  | nil => simp at h
  | cons c cs =>
    have hfold : (c :: cs).foldl (fun s c => rx_isr c.1 c.2 s) st = rx_isr gpio events st := by
      simp only [List.foldl_cons]
      exact key cs (rx_isr c.1 c.2 st) rfl
    rw [hfold]
    exact ⟨rfl, rfl, rfl, rfl, rfl, rfl⟩

/-- Witness for C10: three signals with different arguments, from the state at
loop entry, leave what one signal leaves. -/
theorem rx_isr_idempotent_witness :
    [(14, 8), (14, 4), (3, 0)].foldl (fun s (c : Nat × Nat) => rx_isr c.1 c.2 s) example_state
      = rx_isr 14 8 example_state
    ∧ ([(14, 8), (14, 4), (3, 0)].foldl (fun s (c : Nat × Nat) => rx_isr c.1 c.2 s)
        example_state).rx_done_flag = true :=
  ⟨(rx_isr_idempotent example_state [(14, 8), (14, 4), (3, 0)] 14 8 (by decide)).1,
   (rx_isr_idempotent example_state [(14, 8), (14, 4), (3, 0)] 14 8 (by decide)).2.2.1⟩

/-- C2: on the fetch path (RX done set, CRC error and timeout clear), a reported
payload length above `max_length` ends the cycle as `OversizedPayload` (the
function returns `false`) with no buffer read in the log and with the caller's
buffer, `received_length` and `rx_count` as they were; a reported length of at
most `max_length` leads to exactly one buffer read, of that many bytes from the
reported offset, and `received_length` is the reported length. -/
theorem lora_receive_oversized_guard (cfg : Config) (max_length : Nat)
    (rssi_ptr snr_ptr : Bool) (st : State)
    (hcrc : st.lr1121.irq_status &&& cfg.LR11XX_SYSTEM_IRQ_CRC_ERROR = 0)
    (htmo : st.lr1121.irq_status &&& cfg.LR11XX_SYSTEM_IRQ_TIMEOUT = 0)
    (hrx : st.lr1121.irq_status &&& cfg.LR11XX_SYSTEM_IRQ_RX_DONE ≠ 0) :
    ((lr11xx_radio_get_rx_buffer_status st).1.1 > max_length →
      (lora_receive_body cfg max_length rssi_ptr snr_ptr st).1 = Outcome.OversizedPayload
      ∧ (lora_receive_body cfg max_length rssi_ptr snr_ptr st).1.toBool = false
      ∧ (lora_receive_body cfg max_length rssi_ptr snr_ptr st).2.trace
          = st.trace ++
            [Op.lr11xx_system_get_irq_status st.lr1121.irq_status,
             Op.lr11xx_system_clear_irq_status cfg.LR11XX_SYSTEM_IRQ_ALL_MASK,
             Op.lr11xx_radio_get_lora_pkt_status,
             Op.lr11xx_radio_get_rx_buffer_status,
             Op.printf (Msg.packet_too_large (lr11xx_radio_get_rx_buffer_status st).1.1
               max_length)]
      ∧ (lora_receive_body cfg max_length rssi_ptr snr_ptr st).2.rx_buffer = st.rx_buffer
      ∧ (lora_receive_body cfg max_length rssi_ptr snr_ptr st).2.rx_length = st.rx_length
      ∧ (lora_receive_body cfg max_length rssi_ptr snr_ptr st).2.rx_count = st.rx_count)
    ∧ ((lr11xx_radio_get_rx_buffer_status st).1.1 ≤ max_length →
      (lora_receive_body cfg max_length rssi_ptr snr_ptr st).1 = Outcome.PacketReceived
      ∧ (lora_receive_body cfg max_length rssi_ptr snr_ptr st).1.toBool = true
      ∧ (lora_receive_body cfg max_length rssi_ptr snr_ptr st).2.trace
          = st.trace ++
            [Op.lr11xx_system_get_irq_status st.lr1121.irq_status,
             Op.lr11xx_system_clear_irq_status cfg.LR11XX_SYSTEM_IRQ_ALL_MASK,
             Op.lr11xx_radio_get_lora_pkt_status,
             Op.lr11xx_radio_get_rx_buffer_status,
             Op.lr11xx_regmem_read_buffer8 (lr11xx_radio_get_rx_buffer_status st).1.2
               (lr11xx_radio_get_rx_buffer_status st).1.1]
      ∧ (lora_receive_body cfg max_length rssi_ptr snr_ptr st).2.rx_length
          = (lr11xx_radio_get_rx_buffer_status st).1.1
      ∧ (lora_receive_body cfg max_length rssi_ptr snr_ptr st).2.rx_buffer
          = st.lr1121.bytes_at (lr11xx_radio_get_rx_buffer_status st).1.2
              (lr11xx_radio_get_rx_buffer_status st).1.1
            ++ st.rx_buffer.drop (lr11xx_radio_get_rx_buffer_status st).1.1
      ∧ (st.lr1121.bytes_at (lr11xx_radio_get_rx_buffer_status st).1.2
              (lr11xx_radio_get_rx_buffer_status st).1.1).length
          = (lr11xx_radio_get_rx_buffer_status st).1.1
      ∧ (lora_receive_body cfg max_length rssi_ptr snr_ptr st).2.rx_count
          = (st.rx_count + 1) % 2 ^ 32) := by
  constructor
  · intro hlen
    simp only [lr11xx_radio_get_rx_buffer_status] at hlen ⊢
    simp [lora_receive_body, lr11xx_system_get_irq_status, lr11xx_radio_get_lora_pkt_status,
      lr11xx_radio_get_rx_buffer_status, lr11xx_system_clear_irq_status, emit, printf,
      hcrc, htmo, hrx]
    cases rssi_ptr <;> cases snr_ptr <;> simp [hlen, Outcome.toBool]
  · intro hlen
    simp only [lr11xx_radio_get_rx_buffer_status] at hlen ⊢
    have hlen2 : ¬ st.lr1121.pld_len_in_bytes % 256 > max_length := by omega
    simp [lora_receive_body, lr11xx_system_get_irq_status, lr11xx_radio_get_lora_pkt_status,
      lr11xx_radio_get_rx_buffer_status, lr11xx_system_clear_irq_status,
      lr11xx_regmem_read_buffer8, lr1121_t.bytes_at, emit, printf, hcrc, htmo, hrx]
    cases rssi_ptr <;> cases snr_ptr <;> simp [hlen2, hlen, Outcome.toBool]

/-- Witness for C2: with RX done alone set, a 24-byte payload against a
capacity of 16 is refused without a read, and against 255 it is read. -/
theorem lora_receive_oversized_guard_witness :
    ((lora_receive_body example_config 16 true true (example_after_wait 0x8 24)).1
        = Outcome.OversizedPayload
      ∧ (lora_receive_body example_config 16 true true (example_after_wait 0x8 24)).2.rx_buffer
        = (example_after_wait 0x8 24).rx_buffer)
    ∧ ((lora_receive_body example_config 255 true true (example_after_wait 0x8 24)).1
        = Outcome.PacketReceived
      ∧ (lora_receive_body example_config 255 true true (example_after_wait 0x8 24)).2.rx_length
        = 24) :=
  ⟨⟨((lora_receive_oversized_guard example_config 16 true true (example_after_wait 0x8 24)
        (by decide) (by decide) (by decide)).1 (by decide)).1,
    ((lora_receive_oversized_guard example_config 16 true true (example_after_wait 0x8 24)
        (by decide) (by decide) (by decide)).1 (by decide)).2.2.2.1⟩,
   ⟨((lora_receive_oversized_guard example_config 255 true true (example_after_wait 0x8 24)
        (by decide) (by decide) (by decide)).2 (by decide)).1,
    ((lora_receive_oversized_guard example_config 255 true true (example_after_wait 0x8 24)
        (by decide) (by decide) (by decide)).2 (by decide)).2.2.2.1⟩⟩

/-! ### What `main` prints for a received buffer -/

theorem display_telemetry_eq (packet : gps_telemetry_packet_t) (rssi snr : Int) (st : State) :
    display_telemetry packet rssi snr st
      = { st with trace := st.trace ++
            (display_telemetry_lines packet rssi snr st.rx_count).map Op.printf } := by
  simp [display_telemetry, display_telemetry_lines, printf, emit]

theorem hex_dump_loop_eq (fuel : Nat) : ∀ (i : Nat) (st : State),
    hex_dump_loop fuel i st
      = { st with trace := (st.trace ++
            List.map (fun j => Op.printf (Msg.hex_byte (u8_at st.rx_buffer j)))
              (List.range' i (min fuel (min st.rx_length 32 - i)))) } := by
  induction fuel with
  | zero => intro i st; simp [hex_dump_loop]
  | succ fuel ih =>
    intro i st
    by_cases h : i < st.rx_length ∧ i < 32
    · have hmin : min (fuel + 1) (min st.rx_length 32 - i)
          = min fuel (min st.rx_length 32 - (i + 1)) + 1 := by omega
      simp only [hex_dump_loop, h, and_self, if_true, ih, printf, emit, hmin, List.range'_succ,
        List.map_cons, List.append_assoc, List.singleton_append]
    · have hmin : min (fuel + 1) (min st.rx_length 32 - i) = 0 := by omega
      simp [hex_dump_loop, h, hmin]

theorem main_on_packet_too_short (st : State)
    (h : st.rx_length < sizeof_gps_telemetry_packet_t) :
    main_on_packet st
      = { st with trace := st.trace ++
            ([Op.printf (Msg.packet_too_small st.rx_length sizeof_gps_telemetry_packet_t),
              Op.printf Msg.hex_dump_header]
              ++ hex_dump_ops st.rx_buffer st.rx_length ++ [Op.printf Msg.hex_dump_end]) } := by
  have h2 : ¬ st.rx_length ≥ sizeof_gps_telemetry_packet_t := by omega
  have hmin : min 32 (min st.rx_length 32 - 0) = min st.rx_length 32 := by omega
  simp [main_on_packet, h2, hex_dump_loop_eq, printf, emit, hex_dump_ops, hmin,
    List.range_eq_range']

theorem main_on_packet_bad_magic (st : State)
    (h : st.rx_length ≥ sizeof_gps_telemetry_packet_t)
    (hm : (cast_packet st.rx_buffer).magic ≠ TELEMETRY_MAGIC) :
    main_on_packet st
      = { st with trace := st.trace ++
            [Op.printf (Msg.invalid_magic (cast_packet st.rx_buffer).magic TELEMETRY_MAGIC)] } := by
  simp [main_on_packet, h, hm, printf, emit]

theorem main_on_packet_accepted (st : State)
    (h : st.rx_length ≥ sizeof_gps_telemetry_packet_t)
    (hm : (cast_packet st.rx_buffer).magic = TELEMETRY_MAGIC) :
    main_on_packet st
      = { st with trace := st.trace ++
            (display_telemetry_lines (cast_packet st.rx_buffer) st.rssi st.snr
              st.rx_count).map Op.printf } := by
  simp [main_on_packet, h, hm, display_telemetry_eq]

theorem map_printf_no_read (ms : List Msg) :
    ∀ op ∈ ms.map Op.printf, op.reads_irq_status = false := by
  intro op hop
  simp only [List.mem_map] at hop
  obtain ⟨m, _, rfl⟩ := hop
  rfl

/-- Everything `main` does with a received buffer is `printf` calls. -/
theorem main_on_packet_prints (st : State) :
    ∃ ms : List Msg, main_on_packet st = { st with trace := st.trace ++ ms.map Op.printf } := by
  by_cases h : st.rx_length ≥ sizeof_gps_telemetry_packet_t
  · by_cases hm : (cast_packet st.rx_buffer).magic = TELEMETRY_MAGIC
    · exact ⟨_, main_on_packet_accepted st h hm⟩
    · exact ⟨[Msg.invalid_magic (cast_packet st.rx_buffer).magic TELEMETRY_MAGIC],
        main_on_packet_bad_magic st h hm⟩
  · refine ⟨[Msg.packet_too_small st.rx_length sizeof_gps_telemetry_packet_t,
        Msg.hex_dump_header]
        ++ (List.range (min st.rx_length 32)).map (fun j => Msg.hex_byte (u8_at st.rx_buffer j))
        ++ [Msg.hex_dump_end], ?_⟩
    rw [main_on_packet_too_short st (by omega)]
    simp [hex_dump_ops]

theorem printed_map_printf (ms : List Msg) : printed (ms.map Op.printf) = ms := by
  induction ms with
  | nil => rfl
  | cons m ms ih => simpa [printed] using ih

theorem hex_dump_ops_eq_map (rx_buffer : List Nat) (rx_length : Nat) :
    hex_dump_ops rx_buffer rx_length
      = ((List.range (min rx_length 32)).map (fun j => Msg.hex_byte (u8_at rx_buffer j))).map
          Op.printf := by
  simp [hex_dump_ops]

/-- Reading a packed packet back from its bytes gives the packet, whatever
follows the 24 bytes. -/
theorem cast_packet_packet_bytes (p : gps_telemetry_packet_t) (rest : List Nat)
    (hp : p.in_range) : cast_packet (packet_bytes p ++ rest) = p := by
  obtain ⟨h1, h2, h3, h4, h5, h6, h7, h8⟩ := hp
  cases p with
  | mk magic latitude longitude speed_kph altitude tx_count satellites fix_valid =>
    simp only [cast_packet, packet_bytes, le32_bytes, u32_le_at, u16_le_at, u8_at,
      List.cons_append, List.nil_append, List.getD_cons_zero, List.getD_cons_succ,
      gps_telemetry_packet_t.mk.injEq] at *
    refine ⟨?_, ?_, ?_, ?_, ?_, ?_, ?_, ?_⟩ <;> omega

/-- C3: for every in-range packet `p` whose magic is `TELEMETRY_MAGIC` and every
trailing bytes `t`, a received buffer that starts with the 24 packed
little-endian bytes of `p` followed by `t` is accepted: the cast yields `p`
field for field and `p` is handed to `display_telemetry`; `t` (and whatever the
array holds beyond the received bytes) plays no part. -/
theorem decode_roundtrip (p : gps_telemetry_packet_t) (t stale : List Nat) (st : State)
    (hp : p.in_range) (hm : p.magic = TELEMETRY_MAGIC)
    (hbuf : st.rx_buffer = packet_bytes p ++ t ++ stale)
    (hlen : st.rx_length = sizeof_gps_telemetry_packet_t + t.length) :
    cast_packet (packet_bytes p ++ t) = p
    ∧ (packet_bytes p).length = sizeof_gps_telemetry_packet_t
    ∧ cast_packet st.rx_buffer = p
    ∧ main_on_packet st = display_telemetry p st.rssi st.snr st
    ∧ printed ((main_on_packet st).trace.drop st.trace.length)
        = display_telemetry_lines p st.rssi st.snr st.rx_count := by
  have hcast : cast_packet st.rx_buffer = p := by
    rw [hbuf, List.append_assoc]
    exact cast_packet_packet_bytes p (t ++ stale) hp
  have hge : st.rx_length ≥ sizeof_gps_telemetry_packet_t := by omega
  have hmagic : (cast_packet st.rx_buffer).magic = TELEMETRY_MAGIC := by rw [hcast]; exact hm
  have hmain := main_on_packet_accepted st hge hmagic
  refine ⟨cast_packet_packet_bytes p t hp, rfl, hcast, ?_, ?_⟩
  · rw [hmain, display_telemetry_eq, hcast]
  · rw [hmain, hcast]
    simp only [List.drop_left, printed_map_printf]

/-- Witness for C3: the packet of the end-to-end scenario followed by six
trailing bytes, in a 30-byte reception. -/
theorem decode_roundtrip_witness :
    cast_packet (example_received (packet_bytes example_packet ++ [1, 2, 3, 4, 5, 6]
        ++ List.replicate 225 0) 30).rx_buffer = example_packet
    ∧ main_on_packet (example_received (packet_bytes example_packet ++ [1, 2, 3, 4, 5, 6]
        ++ List.replicate 225 0) 30)
      = display_telemetry example_packet (-40) 7
          (example_received (packet_bytes example_packet ++ [1, 2, 3, 4, 5, 6]
            ++ List.replicate 225 0) 30) :=
  ⟨(decode_roundtrip example_packet [1, 2, 3, 4, 5, 6] (List.replicate 225 0)
      (example_received (packet_bytes example_packet ++ [1, 2, 3, 4, 5, 6]
        ++ List.replicate 225 0) 30) (by decide) (by decide) rfl rfl).2.2.1,
   (decode_roundtrip example_packet [1, 2, 3, 4, 5, 6] (List.replicate 225 0)
      (example_received (packet_bytes example_packet ++ [1, 2, 3, 4, 5, 6]
        ++ List.replicate 225 0) 30) (by decide) (by decide) rfl rfl).2.2.2.1⟩

/-- C4: a received length below 24 is rejected as too short whatever the buffer
holds, the magic included: `main` prints the too-small line and the hex dump of
the first `min rx_length 32` bytes, and neither the invalid-magic line nor any
line of `display_telemetry`. -/
theorem short_buffer_rejected (st : State)
    (h : st.rx_length < sizeof_gps_telemetry_packet_t) :
    main_on_packet st
      = { st with trace := st.trace ++
            ([Op.printf (Msg.packet_too_small st.rx_length sizeof_gps_telemetry_packet_t),
              Op.printf Msg.hex_dump_header]
              ++ hex_dump_ops st.rx_buffer st.rx_length ++ [Op.printf Msg.hex_dump_end]) }
    ∧ (∀ m ∈ printed ((main_on_packet st).trace.drop st.trace.length),
        m.is_telemetry = false ∧ ∀ a b, m ≠ Msg.invalid_magic a b) := by
  refine ⟨main_on_packet_too_short st h, ?_⟩
  rw [main_on_packet_too_short st h]
  simp only [List.drop_left, hex_dump_ops_eq_map]
  intro m hm
  have hprinted : printed ([Op.printf (Msg.packet_too_small st.rx_length
        sizeof_gps_telemetry_packet_t), Op.printf Msg.hex_dump_header]
      ++ ((List.range (min st.rx_length 32)).map
            (fun j => Msg.hex_byte (u8_at st.rx_buffer j))).map Op.printf
      ++ [Op.printf Msg.hex_dump_end])
      = [Msg.packet_too_small st.rx_length sizeof_gps_telemetry_packet_t, Msg.hex_dump_header]
        ++ (List.range (min st.rx_length 32)).map (fun j => Msg.hex_byte (u8_at st.rx_buffer j))
        ++ [Msg.hex_dump_end] := by
    have := printed_map_printf
      ([Msg.packet_too_small st.rx_length sizeof_gps_telemetry_packet_t, Msg.hex_dump_header]
        ++ (List.range (min st.rx_length 32)).map (fun j => Msg.hex_byte (u8_at st.rx_buffer j))
        ++ [Msg.hex_dump_end])
    simpa using this
  rw [hprinted] at hm
  simp only [List.mem_append, List.mem_cons, List.mem_singleton, List.mem_map, List.mem_range,
    List.not_mem_nil, or_false] at hm
  rcases hm with ((rfl | rfl) | ⟨j, _, rfl⟩) | rfl <;>
    exact ⟨rfl, fun a b hab => by cases hab⟩

/-- Witness for C4: the first 23 bytes of the scenario packet, which start with
the correct magic, are rejected as too short. -/
theorem short_buffer_rejected_witness :
    main_on_packet (example_received (packet_bytes example_packet) 23)
      = { example_received (packet_bytes example_packet) 23 with
          trace := [] ++
            ([Op.printf (Msg.packet_too_small 23 sizeof_gps_telemetry_packet_t),
              Op.printf Msg.hex_dump_header]
              ++ hex_dump_ops (packet_bytes example_packet) 23
              ++ [Op.printf Msg.hex_dump_end]) } :=
  (short_buffer_rejected (example_received (packet_bytes example_packet) 23) (by decide)).1

/-- The four complemented magic bytes read back as 0xB9ACCDC9, which is not
`TELEMETRY_MAGIC`, whatever follows them. -/
theorem flipped_magic_differs (rest : List Nat) :
    u32_le_at (flipped_magic_bytes ++ rest) 0 = 0xB9ACCDC9
    ∧ u32_le_at (flipped_magic_bytes ++ rest) 0 ≠ TELEMETRY_MAGIC := by
  have h : u32_le_at (flipped_magic_bytes ++ rest) 0 = 0xB9ACCDC9 := by
    simp only [u32_le_at, u8_at, flipped_magic_bytes, List.cons_append, List.getD_cons_zero,
      List.getD_cons_succ]
  exact ⟨h, by rw [h]; decide⟩

/-- C5: a received length of at least 24 whose first four bytes, read
little-endian, give `m ≠ TELEMETRY_MAGIC` is rejected with the invalid-magic line
carrying `m`, whatever the other bytes hold; nothing of `display_telemetry` is
printed. -/
theorem bad_magic_rejected (st : State)
    (h : st.rx_length ≥ sizeof_gps_telemetry_packet_t)
    (hm : u32_le_at st.rx_buffer 0 ≠ TELEMETRY_MAGIC) :
    main_on_packet st
      = printf (Msg.invalid_magic (u32_le_at st.rx_buffer 0) TELEMETRY_MAGIC) st
    ∧ printed ((main_on_packet st).trace.drop st.trace.length)
      = [Msg.invalid_magic (u32_le_at st.rx_buffer 0) TELEMETRY_MAGIC]
    ∧ (∀ m ∈ printed ((main_on_packet st).trace.drop st.trace.length),
        m.is_telemetry = false) := by
  have hmain := main_on_packet_bad_magic st h hm
  have hmagic : (cast_packet st.rx_buffer).magic = u32_le_at st.rx_buffer 0 := rfl
  rw [hmagic] at hmain
  have hprinted : printed ((main_on_packet st).trace.drop st.trace.length)
      = [Msg.invalid_magic (u32_le_at st.rx_buffer 0) TELEMETRY_MAGIC] := by
    rw [hmain]
    simp [printed]
  refine ⟨hmain, hprinted, ?_⟩
  rw [hprinted]
  intro m hmem
  simp only [List.mem_singleton] at hmem
  subst hmem
  rfl

/-- Witness for C5: exactly 24 received bytes, the scenario packet with every
byte of its magic complemented; the value read is 0xB9ACCDC9. -/
theorem bad_magic_rejected_witness :
    printed ((main_on_packet (example_received
        (flipped_magic_bytes ++ (packet_bytes example_packet).drop 4) 24)).trace.drop
        (example_received (flipped_magic_bytes ++ (packet_bytes example_packet).drop 4)
          24).trace.length)
      = [Msg.invalid_magic
          (u32_le_at (example_received (flipped_magic_bytes ++ (packet_bytes example_packet).drop 4)
            24).rx_buffer 0) TELEMETRY_MAGIC]
    ∧ u32_le_at (flipped_magic_bytes ++ (packet_bytes example_packet).drop 4) 0 = 0xB9ACCDC9 :=
  ⟨(bad_magic_rejected
      (example_received (flipped_magic_bytes ++ (packet_bytes example_packet).drop 4) 24)
      (by decide) (by decide)).2.1, by decide⟩

/-- C7: on every path, `lora_receive` reads the status word, clears the
interrupt-status register with the all-bits mask right after, and nothing it
does afterwards reads the register again; nor does anything `main` does with
the result before the next cycle (the prints and the `sleep_ms(10)`). -/
theorem lora_receive_clears_irq_status (cfg : Config) (max_length : Nat)
    (rssi_ptr snr_ptr : Bool) (st : State) :
    (∃ rest, (lora_receive_body cfg max_length rssi_ptr snr_ptr st).2.trace
        = st.trace ++
          [Op.lr11xx_system_get_irq_status st.lr1121.irq_status,
           Op.lr11xx_system_clear_irq_status cfg.LR11XX_SYSTEM_IRQ_ALL_MASK] ++ rest
        ∧ ∀ op ∈ rest, op.reads_irq_status = false)
    ∧ (lora_receive_body cfg max_length rssi_ptr snr_ptr st).2.lr1121.irq_status
        = st.lr1121.irq_status ^^^ (st.lr1121.irq_status &&& cfg.LR11XX_SYSTEM_IRQ_ALL_MASK)
    ∧ (∃ ops, (main_on_packet st).trace = st.trace ++ ops
        ∧ ∀ op ∈ ops, op.reads_irq_status = false)
    ∧ (∀ ticks, (sleep_ms 10 ticks st).1.trace = st.trace ++ [Op.sleep_ms 10]) := by
  refine ⟨?_, ?_, ?_, ?_⟩
  · simp only [lora_receive_body, lr11xx_system_get_irq_status, lr11xx_radio_get_lora_pkt_status,
      lr11xx_radio_get_rx_buffer_status, lr11xx_system_clear_irq_status,
      lr11xx_regmem_read_buffer8, emit, printf]
    split_ifs <;>
      simp [Op.reads_irq_status]
  · simp only [lora_receive_body, lr11xx_system_get_irq_status, lr11xx_radio_get_lora_pkt_status,
      lr11xx_radio_get_rx_buffer_status, lr11xx_system_clear_irq_status,
      lr11xx_regmem_read_buffer8, emit, printf]
    split_ifs <;> rfl
  · obtain ⟨ms, hms⟩ := main_on_packet_prints st
    exact ⟨ms.map Op.printf, by rw [hms], map_printf_no_read ms⟩
  · intro ticks
    cases ticks with
    | nil => rfl
    | cons t rest =>
      simp only [sleep_ms, Tick.happen, emit]
      cases t.dio_events <;> rfl

/-! ### One pass of the main loop, step by step -/

/-- The wait loop only polls and sleeps: it prints nothing and leaves the
counters and the locals of `main` alone. -/
theorem lora_receive_wait_spec (cfg : Config) : ∀ (ticks : List Tick) (st st1 : State)
    (ticks1 : List Tick), lora_receive_wait cfg ticks st = some (st1, ticks1) →
    st1.rx_count = st.rx_count ∧ st1.error_count = st.error_count
    ∧ ∃ ops, st1.trace = st.trace ++ ops ∧ printed ops = [] := by
  intro ticks
  induction ticks with
  | nil =>
    intro st st1 ticks1 h
    unfold lora_receive_wait at h
    simp only [lr11xx_system_get_irq_status, store_rx_done_flag, store_rx_error_flag, emit] at h
    split_ifs at h
    · simp only [Option.some.injEq, Prod.mk.injEq] at h
      obtain ⟨rfl, _⟩ := h
      exact ⟨rfl, rfl, [], by simp, rfl⟩
    · simp only [Option.some.injEq, Prod.mk.injEq] at h
      obtain ⟨rfl, _⟩ := h
      exact ⟨rfl, rfl, [Op.lr11xx_system_get_irq_status st.lr1121.irq_status,
        Op.store_rx_done_flag true, Op.store_rx_error_flag true], by simp, rfl⟩
    · simp only [Option.some.injEq, Prod.mk.injEq] at h
      obtain ⟨rfl, _⟩ := h
      exact ⟨rfl, rfl, [Op.lr11xx_system_get_irq_status st.lr1121.irq_status,
        Op.store_rx_done_flag true], by simp, rfl⟩
  | cons t rest ih =>
    intro st st1 ticks1 h
    unfold lora_receive_wait at h
    simp only [lr11xx_system_get_irq_status, store_rx_done_flag, store_rx_error_flag, emit] at h
    split_ifs at h
    · simp only [Option.some.injEq, Prod.mk.injEq] at h
      obtain ⟨rfl, _⟩ := h
      exact ⟨rfl, rfl, [], by simp, rfl⟩
    · simp only [Option.some.injEq, Prod.mk.injEq] at h
      obtain ⟨rfl, _⟩ := h
      exact ⟨rfl, rfl, [Op.lr11xx_system_get_irq_status st.lr1121.irq_status,
        Op.store_rx_done_flag true, Op.store_rx_error_flag true], by simp, rfl⟩
    · simp only [Option.some.injEq, Prod.mk.injEq] at h
      obtain ⟨rfl, _⟩ := h
      exact ⟨rfl, rfl, [Op.lr11xx_system_get_irq_status st.lr1121.irq_status,
        Op.store_rx_done_flag true], by simp, rfl⟩
    · obtain ⟨h1, h2, ops, h3, h4⟩ := ih _ _ _ h
      have hc : ∀ s : State, (t.happen s).rx_count = s.rx_count
          ∧ (t.happen s).error_count = s.error_count ∧ (t.happen s).trace = s.trace := by
        intro s
        simp only [Tick.happen, rx_isr]
        cases t.dio_events <;> exact ⟨rfl, rfl, rfl⟩
      rw [(hc _).1] at h1
      rw [(hc _).2.1] at h2
      rw [(hc _).2.2] at h3
      refine ⟨h1, h2, [Op.lr11xx_system_get_irq_status st.lr1121.irq_status, Op.sleep_ms 1]
        ++ ops, ?_, ?_⟩
      · rw [h3]; simp
      · simpa [printed] using h4

/-- The fetch path of `lora_receive` (RX done set, CRC error and timeout
clear): outcome, log and counters for both results of the length check. -/
theorem lora_receive_body_fetch (cfg : Config) (max_length : Nat)
    (rssi_ptr snr_ptr : Bool) (st : State)
    (hcrc : st.lr1121.irq_status &&& cfg.LR11XX_SYSTEM_IRQ_CRC_ERROR = 0)
    (htmo : st.lr1121.irq_status &&& cfg.LR11XX_SYSTEM_IRQ_TIMEOUT = 0)
    (hrx : st.lr1121.irq_status &&& cfg.LR11XX_SYSTEM_IRQ_RX_DONE ≠ 0) :
    (st.lr1121.pld_len_in_bytes % 256 > max_length →
      (lora_receive_body cfg max_length rssi_ptr snr_ptr st).1 = Outcome.OversizedPayload
      ∧ (lora_receive_body cfg max_length rssi_ptr snr_ptr st).2.trace
          = st.trace ++
            [Op.lr11xx_system_get_irq_status st.lr1121.irq_status,
             Op.lr11xx_system_clear_irq_status cfg.LR11XX_SYSTEM_IRQ_ALL_MASK,
             Op.lr11xx_radio_get_lora_pkt_status,
             Op.lr11xx_radio_get_rx_buffer_status,
             Op.printf (Msg.packet_too_large (st.lr1121.pld_len_in_bytes % 256) max_length)]
      ∧ (lora_receive_body cfg max_length rssi_ptr snr_ptr st).2.rx_count = st.rx_count
      ∧ (lora_receive_body cfg max_length rssi_ptr snr_ptr st).2.error_count = st.error_count)
    ∧ (st.lr1121.pld_len_in_bytes % 256 ≤ max_length →
      (lora_receive_body cfg max_length rssi_ptr snr_ptr st).1 = Outcome.PacketReceived
      ∧ (lora_receive_body cfg max_length rssi_ptr snr_ptr st).2.trace
          = st.trace ++
            [Op.lr11xx_system_get_irq_status st.lr1121.irq_status,
             Op.lr11xx_system_clear_irq_status cfg.LR11XX_SYSTEM_IRQ_ALL_MASK,
             Op.lr11xx_radio_get_lora_pkt_status,
             Op.lr11xx_radio_get_rx_buffer_status,
             Op.lr11xx_regmem_read_buffer8 (st.lr1121.buffer_start_pointer % 256)
               (st.lr1121.pld_len_in_bytes % 256)]
      ∧ (lora_receive_body cfg max_length rssi_ptr snr_ptr st).2.rx_count
          = (st.rx_count + 1) % 2 ^ 32
      ∧ (lora_receive_body cfg max_length rssi_ptr snr_ptr st).2.error_count = st.error_count) := by
  constructor
  · intro hlen
    simp [lora_receive_body, lr11xx_system_get_irq_status, lr11xx_radio_get_lora_pkt_status,
      lr11xx_radio_get_rx_buffer_status, lr11xx_system_clear_irq_status, emit, printf,
      hcrc, htmo, hrx]
    cases rssi_ptr <;> cases snr_ptr <;> simp [hlen]
  · intro hlen
    have hlen2 : ¬ st.lr1121.pld_len_in_bytes % 256 > max_length := by omega
    simp [lora_receive_body, lr11xx_system_get_irq_status, lr11xx_radio_get_lora_pkt_status,
      lr11xx_radio_get_rx_buffer_status, lr11xx_system_clear_irq_status,
      lr11xx_regmem_read_buffer8, emit, printf, hcrc, htmo, hrx]
    cases rssi_ptr <;> cases snr_ptr <;> simp [hlen2]

/-- What the part of `lora_receive` after the wait prints and counts, by
outcome. -/
theorem lora_receive_body_spec (cfg : Config) (max_length : Nat) (rssi_ptr snr_ptr : Bool)
    (st : State) :
    (∃ ops, (lora_receive_body cfg max_length rssi_ptr snr_ptr st).2.trace = st.trace ++ ops
      ∧ (((lora_receive_body cfg max_length rssi_ptr snr_ptr st).1 = Outcome.PacketReceived
            ∧ printed ops = [])
          ∨ ((lora_receive_body cfg max_length rssi_ptr snr_ptr st).1 ≠ Outcome.PacketReceived
            ∧ ∃ m, printed ops = [m] ∧ m.newlines = 1 ∧ m.is_telemetry = false)))
    ∧ (lora_receive_body cfg max_length rssi_ptr snr_ptr st).2.rx_count
        = (if (lora_receive_body cfg max_length rssi_ptr snr_ptr st).1 = Outcome.PacketReceived
            then (st.rx_count + 1) % 2 ^ 32 else st.rx_count)
    ∧ (lora_receive_body cfg max_length rssi_ptr snr_ptr st).2.error_count
        = (if (lora_receive_body cfg max_length rssi_ptr snr_ptr st).1 = Outcome.CrcError
            then (st.error_count + 1) % 2 ^ 32 else st.error_count) := by
  by_cases h1 : st.lr1121.irq_status &&& cfg.LR11XX_SYSTEM_IRQ_CRC_ERROR = 0
  swap
  · have hb : lora_receive_body cfg max_length rssi_ptr snr_ptr st
        = (Outcome.CrcError, printf (Msg.crc_error ((st.error_count + 1) % 2 ^ 32))
            { lr11xx_system_clear_irq_status cfg.LR11XX_SYSTEM_IRQ_ALL_MASK
                (lr11xx_system_get_irq_status st).2 with
              error_count := (st.error_count + 1) % 2 ^ 32 }) := by
      simp [lora_receive_body, lr11xx_system_get_irq_status, h1]
      rfl
    rw [hb]
    refine ⟨⟨[Op.lr11xx_system_get_irq_status st.lr1121.irq_status,
        Op.lr11xx_system_clear_irq_status cfg.LR11XX_SYSTEM_IRQ_ALL_MASK,
        Op.printf (Msg.crc_error ((st.error_count + 1) % 2 ^ 32))], ?_,
        Or.inr ⟨by simp, _, rfl, rfl, rfl⟩⟩, rfl, rfl⟩
    simp [printf, emit, lr11xx_system_clear_irq_status, lr11xx_system_get_irq_status]
  by_cases h2 : st.lr1121.irq_status &&& cfg.LR11XX_SYSTEM_IRQ_TIMEOUT = 0
  swap
  · have hb : lora_receive_body cfg max_length rssi_ptr snr_ptr st
        = (Outcome.Timeout, printf Msg.rx_timeout
            (lr11xx_system_clear_irq_status cfg.LR11XX_SYSTEM_IRQ_ALL_MASK
                (lr11xx_system_get_irq_status st).2)) := by
      simp [lora_receive_body, lr11xx_system_get_irq_status, h1, h2]
    rw [hb]
    refine ⟨⟨[Op.lr11xx_system_get_irq_status st.lr1121.irq_status,
        Op.lr11xx_system_clear_irq_status cfg.LR11XX_SYSTEM_IRQ_ALL_MASK,
        Op.printf Msg.rx_timeout], ?_, Or.inr ⟨by simp, _, rfl, rfl, rfl⟩⟩, rfl, rfl⟩
    simp [printf, emit, lr11xx_system_clear_irq_status, lr11xx_system_get_irq_status]
  by_cases h3 : st.lr1121.irq_status &&& cfg.LR11XX_SYSTEM_IRQ_RX_DONE = 0
  · have hb : lora_receive_body cfg max_length rssi_ptr snr_ptr st
        = (Outcome.UnknownInterrupt st.lr1121.irq_status,
            printf (Msg.unknown_irq st.lr1121.irq_status)
              (lr11xx_system_clear_irq_status cfg.LR11XX_SYSTEM_IRQ_ALL_MASK
                (lr11xx_system_get_irq_status st).2)) := by
      simp [lora_receive_body, lr11xx_system_get_irq_status, h1, h2, h3]
    rw [hb]
    refine ⟨⟨[Op.lr11xx_system_get_irq_status st.lr1121.irq_status,
        Op.lr11xx_system_clear_irq_status cfg.LR11XX_SYSTEM_IRQ_ALL_MASK,
        Op.printf (Msg.unknown_irq st.lr1121.irq_status)], ?_,
        Or.inr ⟨by simp, _, rfl, rfl, rfl⟩⟩, rfl, rfl⟩
    simp [printf, emit, lr11xx_system_clear_irq_status, lr11xx_system_get_irq_status]
  have hfetch := lora_receive_body_fetch cfg max_length rssi_ptr snr_ptr st h1 h2 h3
  by_cases h4 : st.lr1121.pld_len_in_bytes % 256 > max_length
  · obtain ⟨e1, e2, e3, e4⟩ := hfetch.1 h4
    rw [e1, e2, e3, e4]
    exact ⟨⟨_, rfl, Or.inr ⟨by simp, _, rfl, rfl, rfl⟩⟩, rfl, rfl⟩
  · obtain ⟨e1, e2, e3, e4⟩ := hfetch.2 (by omega)
    rw [e1, e2, e3, e4]
    exact ⟨⟨_, rfl, Or.inl ⟨rfl, rfl⟩⟩, rfl, rfl⟩


theorem printed_append (a b : List Op) : printed (a ++ b) = printed a ++ printed b := by
  simp [printed, List.filterMap_append]

theorem lines_written_hex_dump (rx_buffer : List Nat) (n : Nat) :
    ((List.map (fun j => Msg.hex_byte (u8_at rx_buffer j)) (List.range n)).map
      Msg.newlines).sum = 0 := by
  induction n with
  | zero => rfl
  | succ n ih =>
    rw [List.range_succ, List.map_append, List.map_append, List.sum_append, ih]
    rfl

/-- A `sleep_ms` call logs itself; the tick that happens meanwhile touches the
radio and the latch only. -/
theorem sleep_ms_spec (ms : Nat) (ticks : List Tick) (st : State) :
    (sleep_ms ms ticks st).1.trace = st.trace ++ [Op.sleep_ms ms]
    ∧ (sleep_ms ms ticks st).1.rx_count = st.rx_count
    ∧ (sleep_ms ms ticks st).1.error_count = st.error_count
    ∧ (sleep_ms ms ticks st).1.rx_buffer = st.rx_buffer
    ∧ (sleep_ms ms ticks st).1.rx_length = st.rx_length
    ∧ (sleep_ms ms ticks st).1.rssi = st.rssi
    ∧ (sleep_ms ms ticks st).1.snr = st.snr := by
  cases ticks with
  | nil => exact ⟨rfl, rfl, rfl, rfl, rfl, rfl, rfl⟩
  | cons t rest =>
    simp only [sleep_ms, Tick.happen, emit, rx_isr]
    cases t.dio_events <;> exact ⟨rfl, rfl, rfl, rfl, rfl, rfl, rfl⟩

/-- A pass of the main loop that ends is: `lora_start_rx`, a wait that ends, the
rest of `lora_receive`, the handling of the buffer if it returned `true`, and
`sleep_ms(10)`. -/
theorem main_iteration_some (cfg : Config) (ticks : List Tick) (st : State) (out : Outcome)
    (st2 : State) (ticks2 : List Tick)
    (h : main_iteration cfg ticks st = some (out, st2, ticks2)) :
    ∃ st1 ticks1, lora_receive_wait cfg ticks (lora_start_rx cfg st) = some (st1, ticks1)
      ∧ out = (lora_receive_body cfg (cfg.PAYLOAD_LENGTH % 256) true true st1).1
      ∧ (st2, ticks2) = sleep_ms 10 ticks1
          (if out.toBool then
            main_on_packet (lora_receive_body cfg (cfg.PAYLOAD_LENGTH % 256) true true st1).2
           else (lora_receive_body cfg (cfg.PAYLOAD_LENGTH % 256) true true st1).2) := by
  unfold main_iteration lora_receive at h
  cases hw : lora_receive_wait cfg ticks (lora_start_rx cfg st) with
  | none => simp [hw] at h
  | some r =>
    obtain ⟨st1, ticks1⟩ := r
    refine ⟨st1, ticks1, rfl, ?_⟩
    simp only [hw, Option.some.injEq, Prod.mk.injEq] at h
    obtain ⟨h1, h2, h3⟩ := h
    subst h1
    refine ⟨rfl, ?_⟩
    rw [← h2, ← h3]

/-- A pass of the main loop ends exactly when its wait ends. -/
theorem main_iteration_isSome (cfg : Config) (ticks : List Tick) (st : State) :
    (main_iteration cfg ticks st).isSome
      = (lora_receive_wait cfg ticks (lora_start_rx cfg st)).isSome := by
  unfold main_iteration lora_receive
  cases hw : lora_receive_wait cfg ticks (lora_start_rx cfg st) with
  | none => simp [hw]
  | some r => simp [hw]

/-- The wait ends as soon as a tick rings the DIO interrupt. -/
theorem lora_receive_wait_isSome (cfg : Config) : ∀ (ticks : List Tick) (st : State),
    (∃ t ∈ ticks, t.dio_events.isSome = true) →
    (lora_receive_wait cfg ticks st).isSome = true := by
  intro ticks
  induction ticks with
  | nil => intro st h; simp at h
  | cons t rest ih =>
    intro st h
    unfold lora_receive_wait
    simp only [lr11xx_system_get_irq_status]
    split_ifs
    · rfl
    · rfl
    · rfl
    · by_cases ht : t.dio_events.isSome = true
      · obtain ⟨ev, hev⟩ := Option.isSome_iff_exists.mp ht
        cases rest with
        | nil => simp [lora_receive_wait, Tick.happen, hev, rx_isr]
        | cons t2 rest2 => simp [lora_receive_wait, Tick.happen, hev, rx_isr]
      · apply ih
        obtain ⟨t1, hmem, ht1⟩ := h
        rcases List.mem_cons.mp hmem with rfl | hmem
        · exact absurd ht1 ht
        · exact ⟨t1, hmem, ht1⟩


theorem lora_start_rx_spec (cfg : Config) (st : State) :
    (∃ ops, (lora_start_rx cfg st).trace = st.trace ++ ops ∧ printed ops = [])
    ∧ (lora_start_rx cfg st).rx_count = st.rx_count
    ∧ (lora_start_rx cfg st).error_count = st.error_count := by
  refine ⟨⟨[Op.lr11xx_system_set_standby cfg.LR11XX_SYSTEM_STANDBY_CFG_RC,
         Op.lr11xx_system_clear_irq_status cfg.LR11XX_SYSTEM_IRQ_ALL_MASK,
         Op.store_rx_done_flag false,
         Op.store_rx_error_flag false,
         Op.lr11xx_radio_set_rx cfg.RX_CONTINUOUS], ?_, rfl⟩, rfl, rfl⟩
  simp [lora_start_rx, store_rx_done_flag, store_rx_error_flag, lr11xx_system_clear_irq_status,
    lr11xx_system_set_standby, lr11xx_radio_set_rx, emit]

/-- Handling the received buffer changes nothing but the log. -/
theorem main_on_packet_fields (st : State) :
    (main_on_packet st).rx_count = st.rx_count
    ∧ (main_on_packet st).error_count = st.error_count
    ∧ (main_on_packet st).rx_buffer = st.rx_buffer
    ∧ (main_on_packet st).rx_length = st.rx_length
    ∧ (main_on_packet st).rssi = st.rssi
    ∧ (main_on_packet st).snr = st.snr := by
  obtain ⟨ms, hms⟩ := main_on_packet_prints st
  rw [hms]
  exact ⟨rfl, rfl, rfl, rfl, rfl, rfl⟩

/-- The counters over one pass of the main loop: `rx_count` moves by one when
the pass ends in `PacketReceived`, `error_count` when it ends in `CrcError`,
and neither moves otherwise. -/
theorem main_iteration_counters (cfg : Config) (ticks : List Tick) (st : State) (out : Outcome)
    (st2 : State) (ticks2 : List Tick)
    (h : main_iteration cfg ticks st = some (out, st2, ticks2)) :
    st2.rx_count = (if out = Outcome.PacketReceived then (st.rx_count + 1) % 2 ^ 32
                    else st.rx_count)
    ∧ st2.error_count = (if out = Outcome.CrcError then (st.error_count + 1) % 2 ^ 32
                         else st.error_count) := by
  obtain ⟨st1, ticks1, hw, hout, hst2⟩ := main_iteration_some cfg ticks st out st2 ticks2 h
  obtain ⟨w1, w2, _⟩ := lora_receive_wait_spec cfg ticks _ st1 ticks1 hw
  obtain ⟨_, s2, s3⟩ := lora_start_rx_spec cfg st
  obtain ⟨_, b2, b3⟩ := lora_receive_body_spec cfg (cfg.PAYLOAD_LENGTH % 256) true true st1
  have hst2a : st2 = (sleep_ms 10 ticks1
          (if out.toBool then
            main_on_packet (lora_receive_body cfg (cfg.PAYLOAD_LENGTH % 256) true true st1).2
           else (lora_receive_body cfg (cfg.PAYLOAD_LENGTH % 256) true true st1).2)).1 :=
    congrArg Prod.fst hst2
  obtain ⟨_, z2, z3, _⟩ := sleep_ms_spec 10 ticks1
          (if out.toBool then
            main_on_packet (lora_receive_body cfg (cfg.PAYLOAD_LENGTH % 256) true true st1).2
           else (lora_receive_body cfg (cfg.PAYLOAD_LENGTH % 256) true true st1).2)
  rw [← hst2a] at z2 z3
  rw [z2, z3, hout]
  rw [← hout]
  cases hb : out.toBool
  · simp only [Bool.false_eq_true, if_false]
    rw [b2, b3, ← hout, w1, w2, s2, s3]
    exact ⟨rfl, rfl⟩
  · simp only [if_true]
    rw [(main_on_packet_fields _).1, (main_on_packet_fields _).2.1, b2, b3, ← hout, w1, w2, s2, s3]
    exact ⟨rfl, rfl⟩

/-- The counters over `n` passes of the main loop, from counters below `2^32`. -/
theorem main_loop_counters (cfg : Config) : ∀ (n : Nat) (ticks : List Tick) (st : State)
    (outs : List Outcome) (st2 : State) (ticks2 : List Tick),
    st.rx_count < 2 ^ 32 → st.error_count < 2 ^ 32 →
    main_loop cfg n ticks st = some (outs, st2, ticks2) →
    st2.rx_count = (st.rx_count + outs.count Outcome.PacketReceived) % 2 ^ 32
    ∧ st2.error_count = (st.error_count + outs.count Outcome.CrcError) % 2 ^ 32
    ∧ outs.length = n := by
  intro n
  induction n with
  | zero =>
    intro ticks st outs st2 ticks2 hr he h
    simp only [main_loop, Option.some.injEq, Prod.mk.injEq] at h
    obtain ⟨rfl, rfl, _⟩ := h
    simp only [List.count_nil, Nat.add_zero, List.length_nil, and_true]
    exact ⟨(Nat.mod_eq_of_lt hr).symm, (Nat.mod_eq_of_lt he).symm⟩
  | succ n ih =>
    intro ticks st outs st2 ticks2 hr he h
    unfold main_loop at h
    cases hit : main_iteration cfg ticks st with
    | none => simp [hit] at h
    | some r =>
      obtain ⟨out, sta, ticksa⟩ := r
      simp only [hit] at h
      cases hl : main_loop cfg n ticksa sta with
      | none => simp [hl] at h
      | some r2 =>
        obtain ⟨outs2, stb, ticksb⟩ := r2
        simp only [hl, Option.some.injEq, Prod.mk.injEq] at h
        obtain ⟨rfl, rfl, _⟩ := h
        obtain ⟨c1, c2⟩ := main_iteration_counters cfg ticks st out sta ticksa hit
        have hra : sta.rx_count < 2 ^ 32 := by
          rw [c1]; split_ifs
          · exact Nat.mod_lt _ (by norm_num)
          · exact hr
        have hea : sta.error_count < 2 ^ 32 := by
          rw [c2]; split_ifs
          · exact Nat.mod_lt _ (by norm_num)
          · exact he
        obtain ⟨i1, i2, i3⟩ := ih ticksa sta outs2 stb ticksb hra hea hl
        refine ⟨?_, ?_, by simp [i3]⟩
        · rw [i1, c1, List.count_cons]
          by_cases ho : out = Outcome.PacketReceived
          · simp only [ho, if_true, beq_self_eq_true]
            omega
          · have : (out == Outcome.PacketReceived) = false := by simpa using ho
            simp only [ho, if_false, this, Bool.false_eq_true, Nat.add_zero]
        · rw [i2, c2, List.count_cons]
          by_cases ho : out = Outcome.CrcError
          · simp only [ho, if_true, beq_self_eq_true]
            omega
          · have : (out == Outcome.CrcError) = false := by simpa using ho
            simp only [ho, if_false, this, Bool.false_eq_true, Nat.add_zero]


theorem toBool_eq_true_iff (out : Outcome) : out.toBool = true ↔ out = Outcome.PacketReceived := by
  cases out <;> simp [Outcome.toBool]

/-- C8 (amended): a pass of the main loop that ends writes exactly one
diagnostic line when the cycle did not deliver a packet or the packet has a
wrong magic; exactly the one report of `display_telemetry` (its thirteen lines,
all of them telemetry lines, carrying the fields of the received packet) when
the packet is accepted; and exactly two lines (the too-small line, then the hex
dump line) when the packet is too short. It never writes nothing, and the loop
then goes on with the next pass. -/
theorem main_iteration_output (cfg : Config) (ticks : List Tick) (st : State) (out : Outcome)
    (st2 : State) (ticks2 : List Tick)
    (h : main_iteration cfg ticks st = some (out, st2, ticks2)) :
    (∃ ops, st2.trace = st.trace ++ ops
      ∧ printed ops ≠ []
      ∧ (out ≠ Outcome.PacketReceived →
          ∃ m, printed ops = [m] ∧ m.newlines = 1 ∧ m.is_telemetry = false
            ∧ lines_written ops = 1)
      ∧ (out = Outcome.PacketReceived → st2.rx_length ≥ sizeof_gps_telemetry_packet_t →
          (cast_packet st2.rx_buffer).magic ≠ TELEMETRY_MAGIC →
          printed ops = [Msg.invalid_magic (cast_packet st2.rx_buffer).magic TELEMETRY_MAGIC]
            ∧ lines_written ops = 1)
      ∧ (out = Outcome.PacketReceived → st2.rx_length ≥ sizeof_gps_telemetry_packet_t →
          (cast_packet st2.rx_buffer).magic = TELEMETRY_MAGIC →
          printed ops
            = [ Msg.telemetry_blank, Msg.telemetry_top, Msg.telemetry_title, Msg.telemetry_rule,
                Msg.telemetry_position (cast_packet st2.rx_buffer).latitude
                  (cast_packet st2.rx_buffer).longitude,
                Msg.telemetry_speed (cast_packet st2.rx_buffer).speed_kph,
                Msg.telemetry_altitude (cast_packet st2.rx_buffer).altitude,
                Msg.telemetry_satellites (cast_packet st2.rx_buffer).satellites,
                Msg.telemetry_fix ((cast_packet st2.rx_buffer).fix_valid != 0),
                Msg.telemetry_tx_count (cast_packet st2.rx_buffer).tx_count,
                Msg.telemetry_rule,
                Msg.telemetry_link st2.rssi st2.snr st2.rx_count,
                Msg.telemetry_bottom ]
            ∧ printed ops = display_telemetry_lines (cast_packet st2.rx_buffer) st2.rssi
                st2.snr st2.rx_count
            ∧ (printed ops).length = 13
            ∧ lines_written ops = 13
            ∧ (∀ m ∈ printed ops, m.is_telemetry = true))
      ∧ (out = Outcome.PacketReceived → st2.rx_length < sizeof_gps_telemetry_packet_t →
          printed ops
            = [Msg.packet_too_small st2.rx_length sizeof_gps_telemetry_packet_t,
                Msg.hex_dump_header]
              ++ (List.range (min st2.rx_length 32)).map
                  (fun j => Msg.hex_byte (u8_at st2.rx_buffer j))
              ++ [Msg.hex_dump_end]
            ∧ lines_written ops = 2))
    ∧ (∀ n, main_loop cfg (n + 1) ticks st
        = (main_loop cfg n ticks2 st2).map (fun r => (out :: r.1, r.2))) := by
  constructor
  swap
  · intro n
    cases hl : main_loop cfg n ticks2 st2 with
    | none => simp [main_loop, h, hl]
    | some r => simp [main_loop, h, hl]
  obtain ⟨st1, ticks1, hw, hout, hst2⟩ := main_iteration_some cfg ticks st out st2 ticks2 h
  obtain ⟨_, _, opsw, w3, w4⟩ := lora_receive_wait_spec cfg ticks _ st1 ticks1 hw
  obtain ⟨⟨ops0, s1, s0⟩, _, _⟩ := lora_start_rx_spec cfg st
  obtain ⟨⟨opsb, b1, b2⟩, _, _⟩ :=
    lora_receive_body_spec cfg (cfg.PAYLOAD_LENGTH % 256) true true st1
  have hst2a : st2 = (sleep_ms 10 ticks1
          (if out.toBool then
            main_on_packet (lora_receive_body cfg (cfg.PAYLOAD_LENGTH % 256) true true st1).2
           else (lora_receive_body cfg (cfg.PAYLOAD_LENGTH % 256) true true st1).2)).1 :=
    congrArg Prod.fst hst2
  obtain ⟨z1, z2, _, z4, z5, z6, z7⟩ := sleep_ms_spec 10 ticks1
          (if out.toBool then
            main_on_packet (lora_receive_body cfg (cfg.PAYLOAD_LENGTH % 256) true true st1).2
           else (lora_receive_body cfg (cfg.PAYLOAD_LENGTH % 256) true true st1).2)
  rw [← hst2a] at z1 z2 z4 z5 z6 z7
  rw [← hout] at b2
  generalize (lora_receive_body cfg (cfg.PAYLOAD_LENGTH % 256) true true st1).2 = stb at *
  have hpre : stb.trace = st.trace ++ (ops0 ++ opsw ++ opsb) := by
    rw [b1, w3, s1]; simp
  have hprepr : printed (ops0 ++ opsw ++ opsb) = printed opsb := by
    rw [printed_append, printed_append, w4, s0]; rfl
  by_cases hpr : out = Outcome.PacketReceived
  · -- a packet was fetched: `main` handles the buffer
    have htb : out.toBool = true := (toBool_eq_true_iff out).mpr hpr
    rw [htb] at z1 z2 z4 z5 z6 z7
    simp only [if_true] at z1 z2 z4 z5 z6 z7
    obtain ⟨f1, _, f3, f4, f5, f6⟩ := main_on_packet_fields stb
    rw [f1] at z2
    rw [f3] at z4
    rw [f4] at z5
    rw [f5] at z6
    rw [f6] at z7
    have hb0 : printed opsb = [] := by
      rcases b2 with ⟨_, hb⟩ | ⟨hne, _⟩
      · exact hb
      · exact absurd hpr hne
    obtain ⟨ms, hms⟩ := main_on_packet_prints stb
    have hall : printed (ops0 ++ opsw ++ opsb ++ ms.map Op.printf ++ [Op.sleep_ms 10]) = ms := by
      rw [printed_append, printed_append, hprepr, hb0, printed_map_printf]; simp [printed]
    have hmsne : ms ≠ [] := by
      intro hnil
      have htr : (main_on_packet stb).trace = stb.trace := by rw [hms, hnil]; simp
      by_cases hlen : stb.rx_length ≥ sizeof_gps_telemetry_packet_t
      · by_cases hmagic : (cast_packet stb.rx_buffer).magic = TELEMETRY_MAGIC
        · rw [main_on_packet_accepted stb hlen hmagic] at htr
          simp [display_telemetry_lines] at htr
        · rw [main_on_packet_bad_magic stb hlen hmagic] at htr
          simp at htr
      · rw [main_on_packet_too_short stb (by omega)] at htr
        simp at htr
    refine ⟨ops0 ++ opsw ++ opsb ++ ms.map Op.printf ++ [Op.sleep_ms 10], ?_, ?_, ?_, ?_, ?_, ?_⟩
    · rw [z1, hms]
      simp only [hpre, List.append_assoc]
    · rw [hall]; exact hmsne
    · intro hne; exact absurd hpr hne
    · intro _ hlen hmagic
      rw [z4, z5] at *
      have hm2 := main_on_packet_bad_magic stb hlen hmagic
      have hmsq : ms.map Op.printf
          = [Op.printf (Msg.invalid_magic (cast_packet stb.rx_buffer).magic TELEMETRY_MAGIC)] := by
        have := hms.symm.trans hm2
        simpa using congrArg State.trace this
      have hmsv : ms = [Msg.invalid_magic (cast_packet stb.rx_buffer).magic TELEMETRY_MAGIC] := by
        have := congrArg printed hmsq
        rwa [printed_map_printf] at this
      rw [hall, lines_written, hall, hmsv]
      exact ⟨rfl, rfl⟩
    · intro _ hlen hmagic
      rw [z4, z5, z6, z7, z2] at *
      have hm2 := main_on_packet_accepted stb hlen hmagic
      have hmsq : ms.map Op.printf
          = (display_telemetry_lines (cast_packet stb.rx_buffer) stb.rssi stb.snr
              stb.rx_count).map Op.printf := by
        have := hms.symm.trans hm2
        simpa using congrArg State.trace this
      have hmsv : ms = display_telemetry_lines (cast_packet stb.rx_buffer) stb.rssi stb.snr
              stb.rx_count := by
        have := congrArg printed hmsq
        rwa [printed_map_printf, printed_map_printf] at this
      rw [lines_written, hall, hmsv]
      refine ⟨rfl, rfl, rfl, rfl, ?_⟩
      intro m hm
      simp only [display_telemetry_lines, List.mem_cons, List.mem_singleton, List.not_mem_nil,
        or_false] at hm
      rcases hm with rfl | rfl | rfl | rfl | rfl | rfl | rfl | rfl | rfl | rfl | rfl | rfl | rfl <;>
        rfl
    · intro _ hlen
      rw [z4, z5] at *
      have hm2 := main_on_packet_too_short stb hlen
      have hmsq : ms.map Op.printf
          = ([Msg.packet_too_small stb.rx_length sizeof_gps_telemetry_packet_t,
                Msg.hex_dump_header]
              ++ (List.range (min stb.rx_length 32)).map
                  (fun j => Msg.hex_byte (u8_at stb.rx_buffer j))
              ++ [Msg.hex_dump_end]).map Op.printf := by
        have := hms.symm.trans hm2
        have h3 := congrArg State.trace this
        simp only [hex_dump_ops_eq_map] at h3
        simpa using h3
      have hmsv : ms = [Msg.packet_too_small stb.rx_length sizeof_gps_telemetry_packet_t,
                Msg.hex_dump_header]
              ++ (List.range (min stb.rx_length 32)).map
                  (fun j => Msg.hex_byte (u8_at stb.rx_buffer j))
              ++ [Msg.hex_dump_end] := by
        have := congrArg printed hmsq
        rwa [printed_map_printf, printed_map_printf] at this
      rw [lines_written, hall, hmsv]
      refine ⟨rfl, ?_⟩
      simp only [List.map_append, List.sum_append, lines_written_hex_dump]
      rfl
  · -- no packet: `lora_receive` printed its one line, `main` prints nothing
    have htb : out.toBool = false := by
      cases hb : out.toBool
      · rfl
      · exact absurd ((toBool_eq_true_iff out).mp hb) hpr
    rw [htb] at z1
    simp only [Bool.false_eq_true, if_false] at z1
    obtain ⟨m, hm1, hm2, hm3⟩ : ∃ m, printed opsb = [m] ∧ m.newlines = 1
        ∧ m.is_telemetry = false := by
      rcases b2 with ⟨heq, _⟩ | ⟨_, hm⟩
      · exact absurd heq hpr
      · exact hm
    have hp : printed (ops0 ++ opsw ++ opsb ++ [Op.sleep_ms 10]) = [m] := by
      rw [printed_append, hprepr, hm1]; rfl
    refine ⟨ops0 ++ opsw ++ opsb ++ [Op.sleep_ms 10], ?_, ?_, ?_, ?_, ?_, ?_⟩
    · rw [z1, hpre]; simp only [List.append_assoc]
    · rw [hp]; simp
    · intro _
      refine ⟨m, hp, hm2, hm3, ?_⟩
      rw [lines_written, hp]
      simp [hm2]
    · intro he; exact absurd he hpr
    · intro he; exact absurd he hpr
    · intro he; exact absurd he hpr

theorem crc_storm_iteration (rest : List Tick) (st : State) (h0 : st.lr1121.irq_status = 0) :
    ∃ st2, main_iteration example_config (crc_tick :: quiet_tick :: rest) st
        = some (Outcome.CrcError, st2, rest) ∧ st2.lr1121.irq_status = 0 := by
  simp [main_iteration, lora_receive, lora_receive_wait, lora_start_rx, store_rx_done_flag,
    store_rx_error_flag,
    lr11xx_system_set_standby, lr11xx_system_clear_irq_status, lr11xx_radio_set_rx,
    lr11xx_system_get_irq_status, emit, h0, example_config, crc_tick, quiet_tick, Tick.happen,
    Tick.on_radio, rx_isr, lora_receive_body, printf, sleep_ms, Outcome.toBool]
  decide

/-- With the ticks of `crc_storm n`, the first `n` passes of the main loop all
end in `CrcError`. -/
theorem crc_storm_run : ∀ (n : Nat) (st : State), st.lr1121.irq_status = 0 →
    ∃ st2, main_loop example_config n (crc_storm n) st
        = some (List.replicate n Outcome.CrcError, st2, []) ∧ st2.lr1121.irq_status = 0 := by
  intro n
  induction n with
  | zero => intro st h0; exact ⟨st, rfl, h0⟩
  | succ n ih =>
    intro st h0
    obtain ⟨sta, ha, ha0⟩ := crc_storm_iteration (crc_storm n) st h0
    obtain ⟨stb, hb, hb0⟩ := ih sta ha0
    refine ⟨stb, ?_, hb0⟩
    rw [crc_storm, main_loop, ha]
    simp only [hb, List.replicate_succ]

/-- After `n` cycles that all end in `CrcError`, `error_count` is `n` reduced
modulo `2^32`. -/
theorem crc_storm_counters (n : Nat) :
    (main_loop example_config n (crc_storm n) example_state).map
        (fun r => (r.1.count Outcome.CrcError, r.2.1.error_count))
      = some (n, n % 2 ^ 32) := by
  obtain ⟨st2, h, _⟩ := crc_storm_run n example_state rfl
  obtain ⟨_, c2, _⟩ := main_loop_counters example_config n (crc_storm n) example_state _ st2 []
    (by decide) (by decide) h
  rw [h]
  simp only [Option.map_some', List.count_replicate_self] at c2 ⊢
  rw [c2]
  have h0 : example_state.error_count = 0 := rfl
  rw [h0, Nat.zero_add]

/-- Counterexample to C6 as stated: from both counters at 0, after `2^32`
cycles that all ended in `CrcError`, `error_count` is 0, not `2^32`. -/
theorem session_counters_wrap :
    (main_loop example_config 4294967296 (crc_storm 4294967296) example_state).map
        (fun r => (r.1.count Outcome.CrcError, r.2.1.error_count))
      = some (4294967296, 0) :=
  crc_storm_counters 4294967296

/-- C6 (amended): from both counters at 0, after any run of passes of the main
loop, `rx_count` is the number of passes that ended in `PacketReceived` and
`error_count` the number that ended in `CrcError`, both reduced modulo `2^32`
(the counters are `uint32_t`); so they equal those numbers as long as these are
below `2^32`. No other outcome moves either counter. -/
theorem session_counters (cfg : Config) (n : Nat) (ticks : List Tick) (st : State)
    (outs : List Outcome) (st2 : State) (ticks2 : List Tick)
    (hrx : st.rx_count = 0) (herr : st.error_count = 0)
    (h : main_loop cfg n ticks st = some (outs, st2, ticks2)) :
    st2.rx_count = outs.count Outcome.PacketReceived % 2 ^ 32
    ∧ st2.error_count = outs.count Outcome.CrcError % 2 ^ 32
    ∧ (outs.count Outcome.PacketReceived < 2 ^ 32 →
        st2.rx_count = outs.count Outcome.PacketReceived)
    ∧ (outs.count Outcome.CrcError < 2 ^ 32 →
        st2.error_count = outs.count Outcome.CrcError) := by
  obtain ⟨c1, c2, _⟩ := main_loop_counters cfg n ticks st outs st2 ticks2
    (by rw [hrx]; norm_num) (by rw [herr]; norm_num) h
  rw [hrx, Nat.zero_add] at c1
  rw [herr, Nat.zero_add] at c2
  refine ⟨c1, c2, ?_, ?_⟩
  · intro hlt; rw [c1, Nat.mod_eq_of_lt hlt]
  · intro hlt; rw [c2, Nat.mod_eq_of_lt hlt]

/-- Witness for C6: six passes ending in a too-short packet, a CRC error, a
timeout, an accepted packet, an unknown interrupt and a CRC error leave
`rx_count = 2` and `error_count = 2`. -/
theorem session_counters_witness :
    (main_loop example_config 6 example_ticks example_state).map
        (fun r => (r.1, r.2.1.rx_count, r.2.1.error_count))
      = some ([Outcome.PacketReceived, Outcome.CrcError, Outcome.Timeout,
                Outcome.PacketReceived, Outcome.UnknownInterrupt 16, Outcome.CrcError], 2, 2) := by
  have hrun : (main_loop example_config 6 example_ticks example_state).map (fun r => r.1)
      = some [Outcome.PacketReceived, Outcome.CrcError, Outcome.Timeout,
                Outcome.PacketReceived, Outcome.UnknownInterrupt 16, Outcome.CrcError] := by
    decide!
  cases h : main_loop example_config 6 example_ticks example_state with
  | none => rw [h] at hrun; exact absurd hrun (by simp)
  | some r =>
    obtain ⟨outs, st2, ticks2⟩ := r
    rw [h] at hrun
    simp only [Option.map_some', Option.some.injEq] at hrun
    subst hrun
    obtain ⟨_, _, c3, c4⟩ := session_counters example_config 6 example_ticks example_state _ st2
      ticks2 rfl rfl h
    simp only [Option.map_some', Option.some.injEq, Prod.mk.injEq, true_and]
    exact ⟨c3 (by decide), c4 (by decide)⟩

/-- Counterexample to C8 as stated: a pass in which a 3-byte frame is received
writes two lines (the too-small line and the hex dump line), not one, and no
telemetry report. -/
theorem too_short_writes_two_lines :
    (main_iteration example_config [frame_tick [1, 2, 3]] example_state).map
        (fun r => (r.1, printed (r.2.1.trace.drop example_state.trace.length),
          lines_written (r.2.1.trace.drop example_state.trace.length)))
      = some (Outcome.PacketReceived,
          [Msg.packet_too_small 3 24, Msg.hex_dump_header, Msg.hex_byte 1, Msg.hex_byte 2,
            Msg.hex_byte 3, Msg.hex_dump_end], 2) := by
  decide

/-- Witness for C8: a pass that ends in a CRC error, and the loop going on
after it. -/
theorem main_iteration_output_witness :
    (main_iteration example_config [crc_tick, quiet_tick] example_state).map (fun r => r.1)
      = some Outcome.CrcError
    ∧ (main_loop example_config 1 [crc_tick, quiet_tick] example_state).map (fun r => r.1)
      = some [Outcome.CrcError] := by
  have hrun : (main_iteration example_config [crc_tick, quiet_tick] example_state).map
      (fun r => r.1) = some Outcome.CrcError := by decide
  refine ⟨hrun, ?_⟩
  cases h : main_iteration example_config [crc_tick, quiet_tick] example_state with
  | none => rw [h] at hrun; exact absurd hrun (by simp)
  | some r =>
    obtain ⟨out, st2, ticks2⟩ := r
    rw [h] at hrun
    simp only [Option.map_some', Option.some.injEq] at hrun
    subst hrun
    rw [(main_iteration_output example_config [crc_tick, quiet_tick] example_state _ st2 ticks2
      h).2 0]
    rfl

end FS26RCV
